import Mathlib

/-!
# CCPR geometry sample (samplecode/SampleCCPRGeometry.cpp)

A shallow embedding of the sample view `CCPRGeometryView`: its primitive model, the
instance builder `updateGpuData`, the coverage-count draw op, the visualisation fragment
processor and the click / key handlers, followed by the properties proved about them.

Conventions of the embedding.

* `float` scalars are exact rationals (`ℚ`): every statement below is about exact
  arithmetic, not about IEEE rounding.
* Builds are release builds: `SkASSERT` and `SkDEBUGCODE` expand to nothing.
* The curve decomposer (`GrCCFillGeometry`), `GrPathUtils::getCubicKLM`, the coverage
  processors and the stroker are collaborators that live outside this file; what the
  sample observes of them is passed in as parameters.
-/

set_option autoImplicit false

namespace CCPRGeometry

/-! ## Points -/

/-- A point of the plane (`SkPoint`), with exact coordinates. -/
structure SkPoint where
  fX : ℚ
  fY : ℚ
  deriving DecidableEq, Repr

namespace SkPoint

instance : Add SkPoint := ⟨fun a b => ⟨a.fX + b.fX, a.fY + b.fY⟩⟩
instance : Sub SkPoint := ⟨fun a b => ⟨a.fX - b.fX, a.fY - b.fY⟩⟩

end SkPoint

/-! ## Visualisation fragment processor -/

/-- GLSL `clamp(x, lo, hi)`, that is `min(max(x, lo), hi)`. -/
def clamp (x lo hi : ℚ) : ℚ := min (max x lo) hi

/-- A `half4` colour. -/
structure Half4 where
  r : ℚ
  g : ℚ
  b : ℚ
  a : ℚ
  deriving DecidableEq, Repr

/-- The shader body emitted by `VisualizeCoverageCountFP::Impl::emitCode`:
`half count = in.a; out = half4(clamp(-count, 0, 1), clamp(+count, 0, 1), 0, abs(count));` -/
def VisualizeCoverageCountFP.emitCode (inputColor : Half4) : Half4 :=
  let count := inputColor.a
  ⟨clamp (-count) 0 1, clamp count 0 1, 0, |count|⟩

/-! ## Collaborator types -/

/-- Modelled from the spec: `GrCCCoverageProcessor::PrimitiveType`, an enum class declared
in GrCCCoverageProcessor.h (not among the sources at hand). A value is its ordinal; the
enumerators come in the order Triangles, WeightedTriangles, Quadratics, Cubics, Conics. -/
structure PrimitiveType where
  val : Int
  deriving DecidableEq, Repr

namespace PrimitiveType

def kTriangles : PrimitiveType := ⟨0⟩
def kWeightedTriangles : PrimitiveType := ⟨1⟩
def kQuadratics : PrimitiveType := ⟨2⟩
def kCubics : PrimitiveType := ⟨3⟩
def kConics : PrimitiveType := ⟨4⟩

end PrimitiveType

/-- Modelled from the spec: `GrCCFillGeometry::Verb` (declared in GrCCFillGeometry.h, not
among the sources at hand), with the verbs the spec lists for a decomposed curve. -/
inductive Verb where
  | kBeginContour
  | kLineTo
  | kMonotonicQuadraticTo
  | kMonotonicCubicTo
  | kMonotonicConicTo
  | kEndClosedContour
  | kEndOpenContour
  deriving DecidableEq, Repr

/-- What the sample observes of a `GrCCFillGeometry`: `verbs()`, `points()` and
`getConicWeight(index)`. -/
structure GrCCFillGeometry where
  verbs : List Verb
  points : List SkPoint
  getConicWeight : Nat → ℚ

/-- The address `&geometry.points()[ptsIdx]`: the point buffer from `ptsIdx` on. An
instance setter that is handed this address reads its first 3 or 4 entries; fewer entries
than that means the read runs past the end of the buffer, which C++ leaves undefined. -/
def GrCCFillGeometry.pointsAt (g : GrCCFillGeometry) (ptsIdx : Nat) : List SkPoint :=
  g.points.drop ptsIdx

/-- Modelled from the spec: `GrCCCoverageProcessor::TriPointInstance` (declared in
GrCCCoverageProcessor.h, not among the sources at hand): 3 point values. -/
structure TriPointInstance where
  pts : List SkPoint
  deriving DecidableEq, Repr

/-- Modelled from the spec: `GrCCCoverageProcessor::QuadPointInstance` (declared in
GrCCCoverageProcessor.h, not among the sources at hand): 4 point values, or 3 point values
and a scalar weight for a conic. -/
structure QuadPointInstance where
  pts : List SkPoint
  w : Option ℚ
  deriving DecidableEq, Repr

/-- Modelled from the spec: `TriPointInstance::set(const SkPoint[3], const Sk2f& trans)`
stores the three points at the address, translated by `trans`. -/
def TriPointInstance.set (p : List SkPoint) (trans : SkPoint) : TriPointInstance :=
  ⟨(p.take 3).map (· + trans)⟩

/-- Modelled from the spec: `TriPointInstance::set(p0, p1, p2, trans)`. -/
def TriPointInstance.set3 (p0 p1 p2 trans : SkPoint) : TriPointInstance :=
  ⟨[p0 + trans, p1 + trans, p2 + trans]⟩

/-- Modelled from the spec: `QuadPointInstance::set(const SkPoint[4], float dx, float dy)`
stores the four points at the address, translated by `(dx, dy)`; no weight. -/
def QuadPointInstance.set (p : List SkPoint) (dx dy : ℚ) : QuadPointInstance :=
  ⟨(p.take 4).map (· + ⟨dx, dy⟩), none⟩

/-- Modelled from the spec: `QuadPointInstance::setW(const SkPoint[3], trans, float w)`
stores the three points at the address, translated by `trans`, and the weight `w`. -/
def QuadPointInstance.setW (p : List SkPoint) (trans : SkPoint) (w : ℚ) : QuadPointInstance :=
  ⟨(p.take 3).map (· + trans), some w⟩

/-- The calls recorded in an `SkPath`. -/
inductive PathCmd where
  | moveTo (p : SkPoint)
  | lineTo (p : SkPoint)
  | quadTo (p1 p2 : SkPoint)
  | conicTo (p1 p2 : SkPoint) (w : ℚ)
  | cubicTo (p1 p2 p3 : SkPoint)
  | close
  deriving DecidableEq, Repr

/-- `SkCubicType`, by ordinal. -/
abbrev SkCubicType := Int

/-- `SkMatrix`: nine scalars. -/
abbrev SkMatrix := Fin 9 → ℚ

/-- The collaborators `updateGpuData` calls: `GrPathUtils::getCubicKLM` (its `t`, `s`
outputs are discarded by the caller) and the `GrCCFillGeometry` builder entry points, each
taking the geometry built so far to the geometry after the call. -/
structure Collaborators where
  getCubicKLM : (Fin 4 → SkPoint) → SkCubicType × SkMatrix
  beginContour : SkPoint → GrCCFillGeometry → GrCCFillGeometry
  quadraticTo : (Fin 3 → SkPoint) → GrCCFillGeometry → GrCCFillGeometry
  conicTo : (Fin 3 → SkPoint) → ℚ → GrCCFillGeometry → GrCCFillGeometry
  cubicTo : (Fin 4 → SkPoint) → ℚ → ℚ → GrCCFillGeometry → GrCCFillGeometry
  endContour : GrCCFillGeometry → GrCCFillGeometry

/-- A default-constructed `GrCCFillGeometry`. -/
def GrCCFillGeometry.empty : GrCCFillGeometry := ⟨[], [], fun _ => 0⟩

/-! ## The view -/

/-- `static constexpr float kDebugBloat = 40;` -/
def kDebugBloat : ℚ := 40

/-- The data members of `CCPRGeometryView`. `fCubicType` and `fCubicKLM` are `none` until
`updateGpuData` first writes them. -/
structure CCPRGeometryView where
  fPrimitiveType : PrimitiveType
  fCubicType : Option SkCubicType
  fCubicKLM : Option SkMatrix
  fPoints : Fin 4 → SkPoint
  fConicWeight : ℚ
  fStrokeWidth : ℚ
  fDoStroke : Bool
  fTriPointInstances : List TriPointInstance
  fQuadPointInstances : List QuadPointInstance
  fPath : List PathCmd

/-- The default member initialisers of `CCPRGeometryView`. -/
def CCPRGeometryView.initial : CCPRGeometryView where
  fPrimitiveType := PrimitiveType.kTriangles
  fCubicType := none
  fCubicKLM := none
  fPoints := ![⟨100.05, 100.05⟩, ⟨400.75, 100.05⟩, ⟨400.75, 300.95⟩, ⟨100.05, 300.95⟩]
  fConicWeight := 0.5
  fStrokeWidth := 40
  fDoStroke := false
  fTriPointInstances := []
  fQuadPointInstances := []
  fPath := []

/-! ## The instance builder -/

/-- The geometry `updateGpuData` builds for the cubic kind: `beginContour(fPoints[0])`,
`cubicTo(fPoints, kDebugBloat / 2, kDebugBloat / 2)`, `endContour()`. -/
def cubicGeometry (ext : Collaborators) (v : CCPRGeometryView) : GrCCFillGeometry :=
  ext.endContour
    (ext.cubicTo v.fPoints (kDebugBloat / 2) (kDebugBloat / 2)
      (ext.beginContour (v.fPoints 0) GrCCFillGeometry.empty))

/-- The local array `SkPoint P3[3] = {fPoints[0], fPoints[1], fPoints[3]}`. -/
def P3 (v : CCPRGeometryView) : Fin 3 → SkPoint :=
  ![v.fPoints 0, v.fPoints 1, v.fPoints 3]

/-- The geometry `updateGpuData` builds for a kind that is neither cubic nor triangle:
`beginContour(P3[0])`, then `quadraticTo(P3)` for the quadratic kind and
`conicTo(P3, fConicWeight)` otherwise, then `endContour()`. -/
def quadraticGeometry (ext : Collaborators) (v : CCPRGeometryView) : GrCCFillGeometry :=
  let g := ext.beginContour (P3 v 0) GrCCFillGeometry.empty
  let g := if v.fPrimitiveType = PrimitiveType.kQuadratics then ext.quadraticTo (P3 v) g
    else ext.conicTo (P3 v) v.fConicWeight g
  ext.endContour g

/-- The variables the cubic verb loop updates: `ptsIdx` and `fQuadPointInstances`. -/
structure CubicLoop where
  ptsIdx : Nat
  quads : List QuadPointInstance

/-- One iteration of the cubic verb loop (the `switch (verb)`). -/
def cubicLoopBody (geometry : GrCCFillGeometry) (st : CubicLoop) (verb : Verb) : CubicLoop :=
  match verb with
  | Verb.kLineTo => { st with ptsIdx := st.ptsIdx + 1 }
  | Verb.kMonotonicQuadraticTo => { st with ptsIdx := st.ptsIdx + 2 }
  | Verb.kMonotonicCubicTo =>
    { ptsIdx := st.ptsIdx + 3
      quads := st.quads ++ [QuadPointInstance.set (geometry.pointsAt st.ptsIdx) 0 0] }
  | _ => st

/-- The cubic verb loop, entered with `ptsIdx = 0` and the instance array just reset. -/
def cubicLoop (geometry : GrCCFillGeometry) : CubicLoop :=
  geometry.verbs.foldl (cubicLoopBody geometry) ⟨0, []⟩

/-- The variables the quadratic / conic verb loop updates: `ptsIdx`, `conicWeightIdx`,
`fTriPointInstances` and `fQuadPointInstances`. -/
structure QuadraticLoop where
  ptsIdx : Nat
  conicWeightIdx : Nat
  tris : List TriPointInstance
  quads : List QuadPointInstance

/-- One iteration of the quadratic / conic verb loop. -/
def quadraticLoopBody (fPrimitiveType : PrimitiveType) (geometry : GrCCFillGeometry)
    (st : QuadraticLoop) (verb : Verb) : QuadraticLoop :=
  if Verb.kBeginContour = verb ∨ Verb.kEndOpenContour = verb ∨ Verb.kEndClosedContour = verb then
    st
  else if Verb.kLineTo = verb then
    { st with ptsIdx := st.ptsIdx + 1 }
  else
    let st :=
      if PrimitiveType.kQuadratics = fPrimitiveType ∧ Verb.kMonotonicQuadraticTo = verb then
        { st with tris := st.tris ++ [TriPointInstance.set (geometry.pointsAt st.ptsIdx) ⟨0, 0⟩] }
      else if PrimitiveType.kConics = fPrimitiveType ∧ Verb.kMonotonicConicTo = verb then
        { st with
          quads := st.quads ++ [QuadPointInstance.setW (geometry.pointsAt st.ptsIdx) ⟨0, 0⟩
            (geometry.getConicWeight st.conicWeightIdx)]
          conicWeightIdx := st.conicWeightIdx + 1 }
      else st
    { st with ptsIdx := st.ptsIdx + 2 }

/-- The quadratic / conic verb loop, entered with both cursors at 0 and both instance
arrays just reset. -/
def quadraticLoop (fPrimitiveType : PrimitiveType) (geometry : GrCCFillGeometry) :
    QuadraticLoop :=
  geometry.verbs.foldl (quadraticLoopBody fPrimitiveType geometry) ⟨0, 0, [], []⟩

/-- The method `CCPRGeometryView::updateGpuData`. -/
def updateGpuData (ext : Collaborators) (v : CCPRGeometryView) : CCPRGeometryView :=
  let v := { v with
    fTriPointInstances := []
    fQuadPointInstances := []
    fPath := [PathCmd.moveTo (v.fPoints 0)] }
  if PrimitiveType.kCubics = v.fPrimitiveType then
    let klm := ext.getCubicKLM v.fPoints
    let st := cubicLoop (cubicGeometry ext v)
    { v with
      fCubicType := some klm.1
      fCubicKLM := some klm.2
      fQuadPointInstances := st.quads
      fPath := v.fPath ++ [PathCmd.cubicTo (v.fPoints 1) (v.fPoints 2) (v.fPoints 3)] }
  else if PrimitiveType.kTriangles ≠ v.fPrimitiveType then
    let st := quadraticLoop v.fPrimitiveType (quadraticGeometry ext v)
    { v with
      fTriPointInstances := st.tris
      fQuadPointInstances := st.quads
      fPath := v.fPath ++
        [if PrimitiveType.kQuadratics = v.fPrimitiveType
          then PathCmd.quadTo (v.fPoints 1) (v.fPoints 3)
          else PathCmd.conicTo (v.fPoints 1) (v.fPoints 3) v.fConicWeight] }
  else
    { v with
      fTriPointInstances :=
        [TriPointInstance.set3 (v.fPoints 0) (v.fPoints 1) (v.fPoints 3) ⟨0, 0⟩]
      fPath := v.fPath ++
        [PathCmd.lineTo (v.fPoints 1), PathCmd.lineTo (v.fPoints 3), PathCmd.close] }

/-- The method `updateAndInval`. -/
def updateAndInval (ext : Collaborators) (v : CCPRGeometryView) : CCPRGeometryView :=
  updateGpuData ext v

/-- The method `onOnceBeforeDraw`. -/
def onOnceBeforeDraw (ext : Collaborators) (v : CCPRGeometryView) : CCPRGeometryView :=
  updateGpuData ext v

/-! ## The coverage-count draw op -/

/-- The calls `DrawCoverageCountOp::onExecute` makes on its collaborators, in order. -/
inductive GpuCall where
  | handleDirtyContext
  | glEnableLineSmooth
  | makeProcessor (geometryShader : Bool)
  | procReset (primitiveType : PrimitiveType)
  | createBuffer (size : Nat)
  | appendMesh (instanceCount : Nat)
  | procDraw (meshCount : Nat)
  | parseDeviceSpaceStroke (path : List PathCmd) (strokeWidth : ℚ)
  | closeCurrentBatch
  | prepareToDraw
  | drawStrokes
  | resetContext
  deriving DecidableEq, Repr

/-- What `onExecute` reads of its `GrOpFlushState`: whether the backend is OpenGL, whether
the caps report geometry shader support, and whether `createBuffer` of a given byte size
returns a buffer. The two instance sizes stand for `sizeof(TriPointInstance)` and
`sizeof(QuadPointInstance)`. -/
structure GrOpFlushState where
  isOpenGL : Bool
  geometryShaderSupport : Bool
  createBuffer : Nat → Bool
  sizeofTriPointInstance : Nat
  sizeofQuadPointInstance : Nat

/-- The non-stroke branch of `onExecute`: reset the processor, create the instance buffer
of the array selected by the kind, append a mesh when that array is non-empty and the
buffer exists, and draw when a mesh was appended. The local `mesh` is the list of the
instance counts of the appended meshes. -/
def DrawCoverageCountOp.drawInstances (state : GrOpFlushState) (fView : CCPRGeometryView) :
    List GpuCall :=
  let appended : List GpuCall × List Nat :=
    if PrimitiveType.kCubics = fView.fPrimitiveType ∨
        PrimitiveType.kConics = fView.fPrimitiveType then
      let size := fView.fQuadPointInstances.length * state.sizeofQuadPointInstance
      let instBuff := state.createBuffer size
      if ¬ fView.fQuadPointInstances = [] ∧ instBuff = true then
        ([GpuCall.createBuffer size, GpuCall.appendMesh fView.fQuadPointInstances.length],
          [fView.fQuadPointInstances.length])
      else ([GpuCall.createBuffer size], [])
    else
      let size := fView.fTriPointInstances.length * state.sizeofTriPointInstance
      let instBuff := state.createBuffer size
      if ¬ fView.fTriPointInstances = [] ∧ instBuff = true then
        ([GpuCall.createBuffer size, GpuCall.appendMesh fView.fTriPointInstances.length],
          [fView.fTriPointInstances.length])
      else ([GpuCall.createBuffer size], [])
  let mesh := appended.2
  [GpuCall.procReset fView.fPrimitiveType] ++ appended.1
    ++ (if ¬ mesh = [] then [GpuCall.procDraw 1] else [])

/-- The stroke branch of `onExecute` for a kind other than conic. -/
def DrawCoverageCountOp.drawStroke (fView : CCPRGeometryView) : List GpuCall :=
  [GpuCall.parseDeviceSpaceStroke fView.fPath fView.fStrokeWidth, GpuCall.closeCurrentBatch,
    GpuCall.prepareToDraw, GpuCall.drawStrokes]

/-- The method `DrawCoverageCountOp::onExecute`, as the sequence of calls it makes. -/
def DrawCoverageCountOp.onExecute (state : GrOpFlushState) (fView : CCPRGeometryView) :
    List GpuCall :=
  (if state.isOpenGL then [GpuCall.handleDirtyContext, GpuCall.glEnableLineSmooth] else [])
    ++ [GpuCall.makeProcessor state.geometryShaderSupport]
    ++ (if !fView.fDoStroke then DrawCoverageCountOp.drawInstances state fView
        else if PrimitiveType.kConics ≠ fView.fPrimitiveType then
          DrawCoverageCountOp.drawStroke fView
        else [])
    ++ (if state.isOpenGL then [GpuCall.resetContext] else [])

/-- A call that writes coverage, or prepares a write: a stroker call, an instance buffer
or mesh, or a processor reset or draw. -/
def GpuCall.touchesTarget : GpuCall → Bool
  | GpuCall.handleDirtyContext => false
  | GpuCall.glEnableLineSmooth => false
  | GpuCall.makeProcessor _ => false
  | GpuCall.resetContext => false
  | _ => true

/-! ## Clicks and keys -/

/-- The click of the sample: the grabbed point index (`-1` for all points) and the current
and previous pointer positions kept by `Sample::Click`. -/
structure Click where
  fPtIdx : Int
  fCurr : SkPoint
  fPrev : SkPoint

/-- The method `Click::doClick(SkPoint points[])` on the four-element array `fPoints`. A
non-negative index outside the array is a write past its end: no result. -/
def Click.doClick (c : Click) (points : Fin 4 → SkPoint) : Option (Fin 4 → SkPoint) :=
  if 0 ≤ c.fPtIdx then
    if h : c.fPtIdx.toNat < 4 then
      some (Function.update points ⟨c.fPtIdx.toNat, h⟩
        (points ⟨c.fPtIdx.toNat, h⟩ + (c.fCurr - c.fPrev)))
    else none
  else
    some ((List.finRange 4).foldl
      (fun pts i => Function.update pts i (pts i + (c.fCurr - c.fPrev))) points)

/-- The method `onFindClickHandler(x, y)`: the index handed to the new `Click`. -/
def onFindClickHandler (v : CCPRGeometryView) (x y : ℚ) : Int :=
  match (List.finRange 4).find? (fun i =>
      !(decide (PrimitiveType.kCubics ≠ v.fPrimitiveType) && decide (2 = i.val)) &&
      (decide (|x - (v.fPoints i).fX| < 20) && decide (|y - (v.fPoints i).fY| < 20))) with
  | some i => (i.val : Int)
  | none => -1

/-- The method `onClick`: `doClick(fPoints)`, then `updateAndInval()`; returns `true`. -/
def onClick (ext : Collaborators) (v : CCPRGeometryView) (click : Click) :
    Option (CCPRGeometryView × Bool) :=
  (click.doClick v.fPoints).map fun pts => (updateAndInval ext { v with fPoints := pts }, true)

/-- The code point of a character literal, as an `SkUnichar`. -/
def uni (c : Char) : Int := (c.toNat : Int)

/-- The member `valueToScale` may point at. -/
inductive ScaleTarget where
  | fStrokeWidth
  | fConicWeight
  deriving DecidableEq, Repr

/-- The assignment `*valueToScale *= factor`. -/
def ScaleTarget.scale (p : ScaleTarget) (v : CCPRGeometryView) (factor : ℚ) :
    CCPRGeometryView :=
  match p with
  | ScaleTarget.fStrokeWidth => { v with fStrokeWidth := v.fStrokeWidth * factor }
  | ScaleTarget.fConicWeight => { v with fConicWeight := v.fConicWeight * factor }

/-- The method `onChar(unichar)`: the view after the key and the returned flag. The `D`
key only prints the control points. -/
def onChar (ext : Collaborators) (v : CCPRGeometryView) (unichar : Int) :
    CCPRGeometryView × Bool :=
  if unichar ≥ uni '1' ∧ unichar ≤ uni '4' then
    let t : PrimitiveType := ⟨unichar - uni '1'⟩
    let t : PrimitiveType :=
      if t.val ≥ PrimitiveType.kWeightedTriangles.val then ⟨t.val + 1⟩ else t
    (updateAndInval ext { v with fPrimitiveType := t }, true)
  else
    let valueToScale : Option ScaleTarget :=
      if v.fDoStroke then some ScaleTarget.fStrokeWidth
      else if PrimitiveType.kConics = v.fPrimitiveType then some ScaleTarget.fConicWeight
      else none
    let scaled : Option (CCPRGeometryView × Bool) :=
      match valueToScale with
      | none => none
      | some p =>
        if unichar = uni '+' then some (updateAndInval ext (p.scale v 2), true)
        else if unichar = uni '+' ∨ unichar = uni '=' then
          some (updateAndInval ext (p.scale v (5 / 4)), true)
        else if unichar = uni '-' then some (updateAndInval ext (p.scale v (4 / 5)), true)
        else if unichar = uni '_' then some (updateAndInval ext (p.scale v (1 / 2)), true)
        else none
    match scaled with
    | some r => r
    | none =>
      if unichar = uni 'D' then (v, true)
      else if unichar = uni 'S' then
        (updateAndInval ext { v with fDoStroke := !v.fDoStroke }, false)
      else (v, false)

/-- The views the sample can be in: the freshly constructed view, and any view obtained
from one of these by `onOnceBeforeDraw`, a key, or a click whose `doClick` is defined. -/
inductive Reachable (ext : Collaborators) : CCPRGeometryView → Prop where
  | initial : Reachable ext CCPRGeometryView.initial
  | onOnceBeforeDraw (v : CCPRGeometryView) :
      Reachable ext v → Reachable ext (onOnceBeforeDraw ext v)
  | onChar (v : CCPRGeometryView) (unichar : Int) :
      Reachable ext v → Reachable ext (onChar ext v unichar).1
  | onClick (v w : CCPRGeometryView) (click : Click) (handled : Bool) :
      Reachable ext v → onClick ext v click = some (w, handled) → Reachable ext w

/-! ## Decomposed curves -/

/-- The number of points a verb takes from the point buffer: 1 for a line, 2 for a
monotonic quadratic or conic, 3 for a monotonic cubic, none for a contour verb. -/
def Verb.numPoints : Verb → Nat
  | Verb.kLineTo => 1
  | Verb.kMonotonicQuadraticTo => 2
  | Verb.kMonotonicConicTo => 2
  | Verb.kMonotonicCubicTo => 3
  | _ => 0

/-- The number of points a verb sequence takes from the point buffer. -/
def consumed (verbs : List Verb) : Nat := (verbs.map Verb.numPoints).sum

/-- A stand-in decomposer for concrete evaluations: it records every curve as a single
monotonic segment, and classifies no cubic. -/
def passThrough : Collaborators where
  getCubicKLM := fun _ => (0, fun _ => 0)
  beginContour := fun p g =>
    { g with verbs := g.verbs ++ [Verb.kBeginContour], points := g.points ++ [p] }
  quadraticTo := fun P g =>
    { g with verbs := g.verbs ++ [Verb.kMonotonicQuadraticTo], points := g.points ++ [P 1, P 2] }
  conicTo := fun P w g =>
    { verbs := g.verbs ++ [Verb.kMonotonicConicTo]
      points := g.points ++ [P 1, P 2]
      getConicWeight := fun i =>
        if i = g.verbs.count Verb.kMonotonicConicTo then w else g.getConicWeight i }
  cubicTo := fun P _ _ g =>
    { g with
      verbs := g.verbs ++ [Verb.kMonotonicCubicTo], points := g.points ++ [P 1, P 2, P 3] }
  endContour := fun g => { g with verbs := g.verbs ++ [Verb.kEndOpenContour] }

/-- A stand-in decomposer for concrete evaluations: whatever it is asked to build,
`endContour` leaves the geometry `g`. -/
def fixedGeometry (g : GrCCFillGeometry) : Collaborators where
  getCubicKLM := fun _ => (0, fun _ => 0)
  beginContour := fun _ h => h
  quadraticTo := fun _ h => h
  conicTo := fun _ _ h => h
  cubicTo := fun _ _ _ h => h
  endContour := fun _ => g

/-- The freshly constructed view with another primitive kind selected. -/
def sampleView (t : PrimitiveType) : CCPRGeometryView :=
  { CCPRGeometryView.initial with fPrimitiveType := t }

/-- A decomposed conic of two monotonic pieces joined by a line, with the weights `1/2`
and `3`. -/
def twoConics : GrCCFillGeometry where
  verbs := [Verb.kBeginContour, Verb.kMonotonicConicTo, Verb.kLineTo, Verb.kMonotonicConicTo,
    Verb.kEndOpenContour]
  points := [⟨0, 0⟩, ⟨1, 0⟩, ⟨2, 1⟩, ⟨3, 1⟩, ⟨4, 2⟩, ⟨4, 3⟩]
  getConicWeight := fun i => [(1 / 2 : ℚ), 3].getD i 0

/-- An OpenGL flush state with geometry shaders whose buffer creation always succeeds. -/
def sampleFlushState : GrOpFlushState where
  isOpenGL := true
  geometryShaderSupport := true
  createBuffer := fun _ => true
  sizeofTriPointInstance := 24
  sizeofQuadPointInstance := 32

/-- The conic view after a rebuild (one Quad Instance), with stroke mode switched on. -/
def strokedConicView : CCPRGeometryView :=
  { updateGpuData passThrough (sampleView PrimitiveType.kConics) with fDoStroke := true }

/-- A single-contour verb sequence with a conic verb before a cubic verb, over a buffer of
1 + 2 + 3 points. -/
def conicThenCubic : GrCCFillGeometry where
  verbs := [Verb.kBeginContour, Verb.kMonotonicConicTo, Verb.kMonotonicCubicTo,
    Verb.kEndOpenContour]
  points := [⟨0, 0⟩, ⟨1, 0⟩, ⟨2, 0⟩, ⟨3, 0⟩, ⟨4, 0⟩, ⟨5, 0⟩]
  getConicWeight := fun _ => 1

/-- A single-contour verb sequence with a cubic verb before a quadratic verb, over a
buffer of 1 + 3 + 2 points. -/
def cubicThenQuadratic : GrCCFillGeometry where
  verbs := [Verb.kBeginContour, Verb.kMonotonicCubicTo, Verb.kMonotonicQuadraticTo,
    Verb.kEndOpenContour]
  points := [⟨0, 0⟩, ⟨1, 0⟩, ⟨2, 0⟩, ⟨3, 0⟩, ⟨4, 0⟩, ⟨5, 0⟩]
  getConicWeight := fun _ => 1

/-- The verbs the cubic verb loop is written for: the contour verbs its `default` case
passes over, and the three verbs its `switch` has a case for. -/
def cubicLoopAdmits : Verb → Bool
  | Verb.kBeginContour => true
  | Verb.kEndOpenContour => true
  | Verb.kEndClosedContour => true
  | Verb.kLineTo => true
  | Verb.kMonotonicQuadraticTo => true
  | Verb.kMonotonicCubicTo => true
  | Verb.kMonotonicConicTo => false

/-- The verbs the quadratic / conic verb loop is written for: the contour verbs and
`kLineTo` it tests for first, and the two verbs of its
`SkASSERT(Verb::kMonotonicQuadraticTo == verb || Verb::kMonotonicConicTo == verb)`. -/
def quadraticLoopAdmits : Verb → Bool
  | Verb.kBeginContour => true
  | Verb.kEndOpenContour => true
  | Verb.kEndClosedContour => true
  | Verb.kLineTo => true
  | Verb.kMonotonicQuadraticTo => true
  | Verb.kMonotonicConicTo => true
  | Verb.kMonotonicCubicTo => false

/-- The value of `ptsIdx` in the cubic verb loop once it has run over the verbs `pre`. -/
def cubicCursor (geometry : GrCCFillGeometry) (pre : List Verb) : Nat :=
  (pre.foldl (cubicLoopBody geometry) ⟨0, []⟩).ptsIdx

/-- The value of `ptsIdx` in the quadratic / conic verb loop once it has run over the
verbs `pre`. -/
def quadraticCursor (fPrimitiveType : PrimitiveType) (geometry : GrCCFillGeometry)
    (pre : List Verb) : Nat :=
  (pre.foldl (quadraticLoopBody fPrimitiveType geometry) ⟨0, 0, [], []⟩).ptsIdx

/-- A decomposed cubic of two monotonic pieces joined by a line, over 1 + 3 + 1 + 3
points. -/
def twoCubics : GrCCFillGeometry where
  verbs := [Verb.kBeginContour, Verb.kMonotonicCubicTo, Verb.kLineTo, Verb.kMonotonicCubicTo,
    Verb.kEndOpenContour]
  points := [⟨0, 0⟩, ⟨1, 0⟩, ⟨2, 0⟩, ⟨3, 0⟩, ⟨4, 0⟩, ⟨5, 0⟩, ⟨6, 0⟩, ⟨7, 0⟩]
  getConicWeight := fun _ => 0

/-- A decomposed quadratic of two monotonic pieces joined by a line, over 1 + 2 + 1 + 2
points. -/
def twoQuadratics : GrCCFillGeometry where
  verbs := [Verb.kBeginContour, Verb.kMonotonicQuadraticTo, Verb.kLineTo,
    Verb.kMonotonicQuadraticTo, Verb.kEndOpenContour]
  points := [⟨0, 0⟩, ⟨1, 0⟩, ⟨2, 0⟩, ⟨3, 0⟩, ⟨4, 0⟩, ⟨5, 0⟩]
  getConicWeight := fun _ => 0

/-! ## Properties -/

/-- C4: for every sampled coverage value `c` the visualisation fragment processor outputs
`(clamp(-c,0,1), clamp(c,0,1), 0, |c|)`, whatever the other channels of its input are; at
`c = 1` this is `(0,1,0,1)`, at `c = -1` it is `(1,0,0,1)`, at `c = 0` it is `(0,0,0,0)` and
at `c = 2` it is green 1 with alpha 2. -/
theorem visualize_color_law :
    (∀ r g b c : ℚ, VisualizeCoverageCountFP.emitCode ⟨r, g, b, c⟩
        = ⟨min (max (-c) 0) 1, min (max c 0) 1, 0, |c|⟩) ∧
    (∀ r g b : ℚ, VisualizeCoverageCountFP.emitCode ⟨r, g, b, 1⟩ = ⟨0, 1, 0, 1⟩) ∧
    (∀ r g b : ℚ, VisualizeCoverageCountFP.emitCode ⟨r, g, b, -1⟩ = ⟨1, 0, 0, 1⟩) ∧
    (∀ r g b : ℚ, VisualizeCoverageCountFP.emitCode ⟨r, g, b, 0⟩ = ⟨0, 0, 0, 0⟩) ∧
    (∀ r g b : ℚ, VisualizeCoverageCountFP.emitCode ⟨r, g, b, 2⟩ = ⟨0, 1, 0, 2⟩) := by
  refine ⟨fun r g b c => rfl, ?_, ?_, ?_, ?_⟩ <;> intro r g b <;>
    simp [VisualizeCoverageCountFP.emitCode, clamp]

/-! ### The instance builder -/

theorem cubicLoop_quads_length (g : GrCCFillGeometry) (vs : List Verb) (st : CubicLoop) :
    (vs.foldl (cubicLoopBody g) st).quads.length
      = st.quads.length + vs.count Verb.kMonotonicCubicTo := by
  induction vs generalizing st with
  | nil => simp
  | cons x xs ih =>
    rw [List.foldl_cons, ih]
    cases x <;> simp [cubicLoopBody, List.count_cons]
    omega

theorem kQuadratics_ne_kConics : PrimitiveType.kQuadratics ≠ PrimitiveType.kConics := by
  decide

theorem quadraticLoopBody_tris (t : PrimitiveType) (g : GrCCFillGeometry) (st : QuadraticLoop)
    (x : Verb) :
    (quadraticLoopBody t g st x).tris = st.tris ++
      (if PrimitiveType.kQuadratics = t ∧ Verb.kMonotonicQuadraticTo = x
        then [TriPointInstance.set (g.pointsAt st.ptsIdx) ⟨0, 0⟩] else []) := by
  unfold quadraticLoopBody
  cases x <;> simp <;> split_ifs <;> simp

theorem quadraticLoopBody_quads (t : PrimitiveType) (g : GrCCFillGeometry) (st : QuadraticLoop)
    (x : Verb) :
    (quadraticLoopBody t g st x).quads = st.quads ++
      (if PrimitiveType.kConics = t ∧ Verb.kMonotonicConicTo = x
        then [QuadPointInstance.setW (g.pointsAt st.ptsIdx) ⟨0, 0⟩
          (g.getConicWeight st.conicWeightIdx)] else []) := by
  unfold quadraticLoopBody
  cases x <;> simp <;> split_ifs <;> simp

theorem quadraticLoopBody_conicWeightIdx (t : PrimitiveType) (g : GrCCFillGeometry)
    (st : QuadraticLoop) (x : Verb) :
    (quadraticLoopBody t g st x).conicWeightIdx = st.conicWeightIdx +
      (if PrimitiveType.kConics = t ∧ Verb.kMonotonicConicTo = x then 1 else 0) := by
  unfold quadraticLoopBody
  cases x <;> simp <;> split_ifs <;> simp

theorem quadraticLoopBody_ptsIdx (t : PrimitiveType) (g : GrCCFillGeometry)
    (st : QuadraticLoop) (x : Verb) :
    (quadraticLoopBody t g st x).ptsIdx = st.ptsIdx +
      (match x with
        | Verb.kBeginContour | Verb.kEndOpenContour | Verb.kEndClosedContour => 0
        | Verb.kLineTo => 1
        | _ => 2) := by
  unfold quadraticLoopBody
  cases x <;> simp <;> split_ifs <;> simp

theorem quadraticLoop_tris_length (t : PrimitiveType) (g : GrCCFillGeometry) (vs : List Verb)
    (st : QuadraticLoop) :
    (vs.foldl (quadraticLoopBody t g) st).tris.length
      = st.tris.length +
        (if PrimitiveType.kQuadratics = t then vs.count Verb.kMonotonicQuadraticTo else 0) := by
  induction vs generalizing st with
  | nil => simp
  | cons x xs ih =>
    rw [List.foldl_cons, ih, quadraticLoopBody_tris]
    by_cases ht : PrimitiveType.kQuadratics = t
    · cases x <;> simp [List.count_cons, ht]
      omega
    · simp [ht]

theorem quadraticLoop_quads_length (t : PrimitiveType) (g : GrCCFillGeometry) (vs : List Verb)
    (st : QuadraticLoop) :
    (vs.foldl (quadraticLoopBody t g) st).quads.length
      = st.quads.length +
        (if PrimitiveType.kConics = t then vs.count Verb.kMonotonicConicTo else 0) := by
  induction vs generalizing st with
  | nil => simp
  | cons x xs ih =>
    rw [List.foldl_cons, ih, quadraticLoopBody_quads]
    by_cases ht : PrimitiveType.kConics = t
    · cases x <;> simp [List.count_cons, ht]
      omega
    · simp [ht]

theorem SkPoint.add_zero (p : SkPoint) : p + (⟨0, 0⟩ : SkPoint) = p := by
  cases p
  show SkPoint.mk _ _ = _
  simp

theorem map_add_zero (ps : List SkPoint) : ps.map (· + (⟨0, 0⟩ : SkPoint)) = ps := by
  simp [SkPoint.add_zero]

theorem updateGpuData_cubics (ext : Collaborators) (v : CCPRGeometryView)
    (h : v.fPrimitiveType = PrimitiveType.kCubics) :
    (updateGpuData ext v).fQuadPointInstances = (cubicLoop (cubicGeometry ext v)).quads ∧
    (updateGpuData ext v).fTriPointInstances = [] := by
  simp [updateGpuData, h, cubicGeometry]

theorem updateGpuData_quadratics (ext : Collaborators) (v : CCPRGeometryView)
    (h1 : v.fPrimitiveType ≠ PrimitiveType.kCubics)
    (h2 : v.fPrimitiveType ≠ PrimitiveType.kTriangles) :
    (updateGpuData ext v).fQuadPointInstances
      = (quadraticLoop v.fPrimitiveType (quadraticGeometry ext v)).quads ∧
    (updateGpuData ext v).fTriPointInstances
      = (quadraticLoop v.fPrimitiveType (quadraticGeometry ext v)).tris := by
  simp [updateGpuData, Ne.symm h1, Ne.symm h2, quadraticGeometry, P3]

/-- C2: for the Triangle kind, whatever the control points and whatever the instance arrays
held before, `updateGpuData` leaves exactly one Triangle Instance, holding `fPoints[0]`,
`fPoints[1]`, `fPoints[3]` in that order, and no Quad Instance. -/
theorem triangle_rebuild (ext : Collaborators) (v : CCPRGeometryView)
    (h : v.fPrimitiveType = PrimitiveType.kTriangles) :
    (updateGpuData ext v).fTriPointInstances
      = [⟨[v.fPoints 0, v.fPoints 1, v.fPoints 3]⟩] ∧
    (updateGpuData ext v).fQuadPointInstances = [] := by
  have hc : ¬ PrimitiveType.kCubics = PrimitiveType.kTriangles := by decide
  simp [updateGpuData, h, hc, TriPointInstance.set3, SkPoint.add_zero]

theorem triangle_rebuild_witness :
    (sampleView PrimitiveType.kTriangles).fPrimitiveType = PrimitiveType.kTriangles ∧
    (updateGpuData passThrough (sampleView PrimitiveType.kTriangles)).fTriPointInstances
      = [⟨[(sampleView PrimitiveType.kTriangles).fPoints 0,
          (sampleView PrimitiveType.kTriangles).fPoints 1,
          (sampleView PrimitiveType.kTriangles).fPoints 3]⟩] ∧
    (updateGpuData passThrough (sampleView PrimitiveType.kTriangles)).fQuadPointInstances = [] :=
  ⟨rfl, triangle_rebuild passThrough (sampleView PrimitiveType.kTriangles) rfl⟩

/-- C1, as amended: for the Cubic and Conic kinds the number of Quad Instances
`updateGpuData` emits equals the number of `kMonotonicCubicTo`, respectively
`kMonotonicConicTo`, verbs of the decomposed curve; for the Quadratic kind it emits no
Quad Instance, and the number of Triangle Instances equals the number of
`kMonotonicQuadraticTo` verbs. -/
theorem rebuild_instance_counts (ext : Collaborators) (v : CCPRGeometryView) :
    (v.fPrimitiveType = PrimitiveType.kCubics →
      (updateGpuData ext v).fQuadPointInstances.length
        = (cubicGeometry ext v).verbs.count Verb.kMonotonicCubicTo) ∧
    (v.fPrimitiveType = PrimitiveType.kConics →
      (updateGpuData ext v).fQuadPointInstances.length
        = (quadraticGeometry ext v).verbs.count Verb.kMonotonicConicTo) ∧
    (v.fPrimitiveType = PrimitiveType.kQuadratics →
      (updateGpuData ext v).fQuadPointInstances.length = 0 ∧
      (updateGpuData ext v).fTriPointInstances.length
        = (quadraticGeometry ext v).verbs.count Verb.kMonotonicQuadraticTo) := by
  refine ⟨fun h => ?_, fun h => ?_, fun h => ?_⟩
  · rw [(updateGpuData_cubics ext v h).1, cubicLoop, cubicLoop_quads_length]
    simp
  · have h1 : v.fPrimitiveType ≠ PrimitiveType.kCubics := by rw [h]; decide
    have h2 : v.fPrimitiveType ≠ PrimitiveType.kTriangles := by rw [h]; decide
    rw [(updateGpuData_quadratics ext v h1 h2).1, quadraticLoop, quadraticLoop_quads_length]
    simp [h]
  · have h1 : v.fPrimitiveType ≠ PrimitiveType.kCubics := by rw [h]; decide
    have h2 : v.fPrimitiveType ≠ PrimitiveType.kTriangles := by rw [h]; decide
    have h3 : ¬ PrimitiveType.kConics = PrimitiveType.kQuadratics := by decide
    rw [(updateGpuData_quadratics ext v h1 h2).1, (updateGpuData_quadratics ext v h1 h2).2,
      quadraticLoop, quadraticLoop_quads_length, quadraticLoop_tris_length]
    simp [h, h3]

theorem rebuild_instance_counts_witness :
    (updateGpuData passThrough (sampleView PrimitiveType.kCubics)).fQuadPointInstances.length
      = (cubicGeometry passThrough (sampleView PrimitiveType.kCubics)).verbs.count
          Verb.kMonotonicCubicTo ∧
    (updateGpuData passThrough (sampleView PrimitiveType.kConics)).fQuadPointInstances.length
      = (quadraticGeometry passThrough (sampleView PrimitiveType.kConics)).verbs.count
          Verb.kMonotonicConicTo ∧
    ((updateGpuData passThrough
        (sampleView PrimitiveType.kQuadratics)).fQuadPointInstances.length = 0 ∧
      (updateGpuData passThrough (sampleView PrimitiveType.kQuadratics)).fTriPointInstances.length
        = (quadraticGeometry passThrough (sampleView PrimitiveType.kQuadratics)).verbs.count
            Verb.kMonotonicQuadraticTo) :=
  ⟨(rebuild_instance_counts passThrough (sampleView PrimitiveType.kCubics)).1 rfl,
    (rebuild_instance_counts passThrough (sampleView PrimitiveType.kConics)).2.1 rfl,
    (rebuild_instance_counts passThrough (sampleView PrimitiveType.kQuadratics)).2.2 rfl⟩

/-- C1, counterexample: for the Quadratic kind and a curve decomposed into one
`kMonotonicQuadraticTo` verb, `updateGpuData` emits no Quad Instance (it emits one
Triangle Instance), so the number of Quad Instances differs from the number of matching
verbs. -/
theorem quadratic_kind_emits_no_quad_instance :
    (sampleView PrimitiveType.kQuadratics).fPrimitiveType = PrimitiveType.kQuadratics ∧
    (quadraticGeometry passThrough (sampleView PrimitiveType.kQuadratics)).verbs
      = [Verb.kBeginContour, Verb.kMonotonicQuadraticTo, Verb.kEndOpenContour] ∧
    (updateGpuData passThrough (sampleView PrimitiveType.kQuadratics)).fQuadPointInstances = [] ∧
    (updateGpuData passThrough
        (sampleView PrimitiveType.kQuadratics)).fTriPointInstances.length = 1 ∧
    (updateGpuData passThrough (sampleView PrimitiveType.kQuadratics)).fQuadPointInstances.length
      ≠ (quadraticGeometry passThrough (sampleView PrimitiveType.kQuadratics)).verbs.count
          Verb.kMonotonicQuadraticTo := by
  refine ⟨rfl, rfl, ?_, ?_, ?_⟩ <;> decide

theorem quadraticLoop_conic_weights (g : GrCCFillGeometry) (vs : List Verb)
    (st : QuadraticLoop) :
    (vs.foldl (quadraticLoopBody PrimitiveType.kConics g) st).quads.map (·.w)
      = st.quads.map (·.w) ++ (List.range (vs.count Verb.kMonotonicConicTo)).map
          (fun i => some (g.getConicWeight (st.conicWeightIdx + i))) := by
  induction vs generalizing st with
  | nil => simp
  | cons x xs ih =>
    rw [List.foldl_cons, ih, quadraticLoopBody_quads, quadraticLoopBody_conicWeightIdx]
    by_cases hx : Verb.kMonotonicConicTo = x
    · subst hx
      simp [List.range_succ_eq_map, Function.comp_def, QuadPointInstance.setW,
        Nat.add_assoc, Nat.add_comm 1]
    · have hx' : ¬ x = Verb.kMonotonicConicTo := fun h => hx h.symm
      simp [hx, List.count_cons, hx']

theorem range_map_eq_take (n : Nat) (f : Nat → ℚ) (ws : List ℚ) (hn : n ≤ ws.length)
    (hw : ∀ i (hi : i < ws.length), f i = ws[i]) :
    (List.range n).map (fun i => some (f i)) = (ws.take n).map some := by
  apply List.ext_getElem
  · simp [hn]
  · intro i h1 h2
    simp at h1 h2
    simp [hw i (by omega)]

/-- C3: for the Conic kind, when the decomposed curve has the weight sequence `ws` (its
`getConicWeight(i)` is `ws[i]`) and `ws` has at least as many weights as there are
`kMonotonicConicTo` verbs, the weights carried by the emitted Quad Instances, in order,
are the first weights of `ws`, one for each conic verb: the i-th instance carries `ws[i]`. -/
theorem conic_weights_in_verb_order (ext : Collaborators) (v : CCPRGeometryView) (ws : List ℚ)
    (h : v.fPrimitiveType = PrimitiveType.kConics)
    (hw : ∀ i (hi : i < ws.length), (quadraticGeometry ext v).getConicWeight i = ws[i])
    (hlen : (quadraticGeometry ext v).verbs.count Verb.kMonotonicConicTo ≤ ws.length) :
    (updateGpuData ext v).fQuadPointInstances.map (·.w)
      = (ws.take ((quadraticGeometry ext v).verbs.count Verb.kMonotonicConicTo)).map some ∧
    ∀ i, i < (quadraticGeometry ext v).verbs.count Verb.kMonotonicConicTo →
      ((updateGpuData ext v).fQuadPointInstances[i]?).map (·.w) = some ws[i]? := by
  have h1 : v.fPrimitiveType ≠ PrimitiveType.kCubics := by rw [h]; decide
  have h2 : v.fPrimitiveType ≠ PrimitiveType.kTriangles := by rw [h]; decide
  have key : (updateGpuData ext v).fQuadPointInstances.map (·.w)
      = (ws.take ((quadraticGeometry ext v).verbs.count Verb.kMonotonicConicTo)).map some := by
    rw [(updateGpuData_quadratics ext v h1 h2).1, h, quadraticLoop,
      quadraticLoop_conic_weights, ← range_map_eq_take _ _ ws hlen hw]
    simp
  refine ⟨key, fun i hi => ?_⟩
  have hi2 : i < ws.length := by omega
  rw [← List.getElem?_map, key]
  simp [List.getElem?_take, hi, hi2]

theorem conic_weights_in_verb_order_witness :
    (sampleView PrimitiveType.kConics).fPrimitiveType = PrimitiveType.kConics ∧
    (quadraticGeometry (fixedGeometry twoConics) (sampleView PrimitiveType.kConics)).verbs.count
      Verb.kMonotonicConicTo = 2 ∧
    (updateGpuData (fixedGeometry twoConics)
        (sampleView PrimitiveType.kConics)).fQuadPointInstances.map (·.w)
      = ([(1 / 2 : ℚ), 3].take
          ((quadraticGeometry (fixedGeometry twoConics)
            (sampleView PrimitiveType.kConics)).verbs.count Verb.kMonotonicConicTo)).map some :=
  ⟨rfl, by decide,
    (conic_weights_in_verb_order (fixedGeometry twoConics) (sampleView PrimitiveType.kConics)
      [1 / 2, 3] rfl
      (fun i hi => by
        have hi2 : i < 2 := hi
        interval_cases i <;> rfl)
      (by decide)).1⟩

/-! ### The draw op -/

/-- C5: for every view whose kind is Conic and whose stroke mode is on, whatever its
instance arrays hold, `onExecute` makes no stroker call, creates no instance buffer,
appends no mesh and draws nothing: it only constructs the (unused) processor, between
the OpenGL state calls when the backend is OpenGL. -/
theorem conic_stroke_is_noop (state : GrOpFlushState) (v : CCPRGeometryView)
    (hk : v.fPrimitiveType = PrimitiveType.kConics) (hs : v.fDoStroke = true) :
    DrawCoverageCountOp.onExecute state v
      = (if state.isOpenGL then [GpuCall.handleDirtyContext, GpuCall.glEnableLineSmooth] else [])
        ++ [GpuCall.makeProcessor state.geometryShaderSupport]
        ++ (if state.isOpenGL then [GpuCall.resetContext] else []) ∧
    ∀ c ∈ DrawCoverageCountOp.onExecute state v, c.touchesTarget = false := by
  have h : DrawCoverageCountOp.onExecute state v
      = (if state.isOpenGL then [GpuCall.handleDirtyContext, GpuCall.glEnableLineSmooth] else [])
        ++ [GpuCall.makeProcessor state.geometryShaderSupport]
        ++ (if state.isOpenGL then [GpuCall.resetContext] else []) := by
    simp [DrawCoverageCountOp.onExecute, hk, hs]
  refine ⟨h, ?_⟩
  rw [h]
  intro c hc
  cases hgl : state.isOpenGL <;> simp [hgl] at hc <;> rcases hc with rfl | rfl | rfl | rfl <;> rfl

theorem conic_stroke_is_noop_witness :
    strokedConicView.fPrimitiveType = PrimitiveType.kConics ∧
    strokedConicView.fDoStroke = true ∧
    strokedConicView.fQuadPointInstances.length = 1 ∧
    DrawCoverageCountOp.onExecute sampleFlushState strokedConicView
      = [GpuCall.handleDirtyContext, GpuCall.glEnableLineSmooth, GpuCall.makeProcessor true,
          GpuCall.resetContext] :=
  ⟨rfl, rfl, by decide,
    (conic_stroke_is_noop sampleFlushState strokedConicView rfl rfl).1⟩

/-! ### Clicks -/

theorem updateGpuData_frame (ext : Collaborators) (v : CCPRGeometryView) :
    (updateGpuData ext v).fPrimitiveType = v.fPrimitiveType ∧
    (updateGpuData ext v).fPoints = v.fPoints ∧
    (updateGpuData ext v).fConicWeight = v.fConicWeight ∧
    (updateGpuData ext v).fStrokeWidth = v.fStrokeWidth ∧
    (updateGpuData ext v).fDoStroke = v.fDoStroke := by
  unfold updateGpuData
  simp only []
  split_ifs <;> simp

theorem SkPoint.add_def (a b : SkPoint) : a + b = ⟨a.fX + b.fX, a.fY + b.fY⟩ := rfl

theorem SkPoint.sub_def (a b : SkPoint) : a - b = ⟨a.fX - b.fX, a.fY - b.fY⟩ := rfl

theorem SkPoint.add_sub_add_right (a b d : SkPoint) : (a + d) - (b + d) = a - b := by
  simp [SkPoint.add_def, SkPoint.sub_def]

/-- C6: for every grabbed point index `i` in 0..3 and every pair of pointer positions
(pointer delta `fCurr - fPrev`), `Click::doClick` returns the array in which the delta is
added to `points[i]` and the other three control points are unchanged; `onClick` then
leaves the kind, the conic weight, the stroke width and the stroke flag unchanged. -/
theorem drag_single_point (ext : Collaborators) (v : CCPRGeometryView) (i : Fin 4)
    (fCurr fPrev : SkPoint) :
    ∃ pts, Click.doClick ⟨(i.val : Int), fCurr, fPrev⟩ v.fPoints = some pts ∧
      pts i = v.fPoints i + (fCurr - fPrev) ∧
      (∀ j, j ≠ i → pts j = v.fPoints j) ∧
      ∃ w, onClick ext v ⟨(i.val : Int), fCurr, fPrev⟩ = some (w, true) ∧
        w.fPoints = pts ∧
        w.fPrimitiveType = v.fPrimitiveType ∧
        w.fConicWeight = v.fConicWeight ∧
        w.fStrokeWidth = v.fStrokeWidth ∧
        w.fDoStroke = v.fDoStroke := by
  have hd : Click.doClick ⟨(i.val : Int), fCurr, fPrev⟩ v.fPoints
      = some (Function.update v.fPoints i (v.fPoints i + (fCurr - fPrev))) := by
    simp [Click.doClick]
  refine ⟨_, hd, by simp, fun j hj => by simp [Function.update, hj], ?_⟩
  refine ⟨updateAndInval ext
    { v with fPoints := Function.update v.fPoints i (v.fPoints i + (fCurr - fPrev)) }, ?_, ?_⟩
  · simp [onClick, hd]
  · obtain ⟨h1, h2, h3, h4, h5⟩ := updateGpuData_frame ext
      { v with fPoints := Function.update v.fPoints i (v.fPoints i + (fCurr - fPrev)) }
    exact ⟨h2, h1, h3, h4, h5⟩

/-- C7: when all points are grabbed (point index -1), for every pair of pointer positions
(pointer delta `fCurr - fPrev`) `Click::doClick` returns the array in which the same
delta is added to each of the four control points, so every difference
`points[i] - points[j]` is the same after the drag as before. -/
theorem drag_all_points (points : Fin 4 → SkPoint) (fCurr fPrev : SkPoint) :
    ∃ pts, Click.doClick ⟨-1, fCurr, fPrev⟩ points = some pts ∧
      (∀ i, pts i = points i + (fCurr - fPrev)) ∧
      ∀ i j, pts i - pts j = points i - points j := by
  have hd : Click.doClick ⟨-1, fCurr, fPrev⟩ points
      = some (fun i => points i + (fCurr - fPrev)) := by
    have hr : List.finRange 4 = [0, 1, 2, 3] := rfl
    simp only [Click.doClick, hr, List.foldl_cons, List.foldl_nil]
    simp only [show ¬ (0 : Int) ≤ -1 by decide, if_false, Option.some.injEq]
    funext i
    fin_cases i <;> simp [Function.update]
  exact ⟨_, hd, fun i => rfl, fun i j => SkPoint.add_sub_add_right _ _ _⟩

/-! ### Keys -/

@[simp] theorem updateGpuData_fPrimitiveType (ext : Collaborators) (v : CCPRGeometryView) :
    (updateGpuData ext v).fPrimitiveType = v.fPrimitiveType :=
  (updateGpuData_frame ext v).1

@[simp] theorem updateGpuData_fPoints (ext : Collaborators) (v : CCPRGeometryView) :
    (updateGpuData ext v).fPoints = v.fPoints :=
  (updateGpuData_frame ext v).2.1

@[simp] theorem updateGpuData_fConicWeight (ext : Collaborators) (v : CCPRGeometryView) :
    (updateGpuData ext v).fConicWeight = v.fConicWeight :=
  (updateGpuData_frame ext v).2.2.1

@[simp] theorem updateGpuData_fStrokeWidth (ext : Collaborators) (v : CCPRGeometryView) :
    (updateGpuData ext v).fStrokeWidth = v.fStrokeWidth :=
  (updateGpuData_frame ext v).2.2.2.1

@[simp] theorem updateGpuData_fDoStroke (ext : Collaborators) (v : CCPRGeometryView) :
    (updateGpuData ext v).fDoStroke = v.fDoStroke :=
  (updateGpuData_frame ext v).2.2.2.2


theorem uni_vals : uni '1' = 49 ∧ uni '4' = 52 ∧ uni '+' = 43 ∧ uni '=' = 61 ∧ uni '-' = 45 ∧
    uni '_' = 95 ∧ uni 'D' = 68 ∧ uni 'S' = 83 := by
  refine ⟨rfl, rfl, rfl, rfl, rfl, rfl, rfl, rfl⟩

theorem onChar_scale_key (ext : Collaborators) (v : CCPRGeometryView) (unichar : Int)
    (factor : ℚ)
    (hk : (unichar, factor) ∈
      [(uni '+', (2 : ℚ)), (uni '=', 5 / 4), (uni '-', 4 / 5), (uni '_', 1 / 2)]) :
    onChar ext v unichar =
      if v.fDoStroke = true then
        (updateAndInval ext (ScaleTarget.fStrokeWidth.scale v factor), true)
      else if PrimitiveType.kConics = v.fPrimitiveType then
        (updateAndInval ext (ScaleTarget.fConicWeight.scale v factor), true)
      else (v, false) := by
  obtain ⟨h1, h4, hp, he, hm, hu, hD, hS⟩ := uni_vals
  simp only [List.mem_cons, Prod.mk.injEq, List.mem_singleton, List.not_mem_nil, or_false] at hk
  unfold onChar
  rw [h1, h4, hp, he, hm, hu, hD, hS]
  rw [hp, he, hm, hu] at hk
  rcases hk with ⟨rfl, rfl⟩ | ⟨rfl, rfl⟩ | ⟨rfl, rfl⟩ | ⟨rfl, rfl⟩ <;>
    cases hs : v.fDoStroke <;>
    by_cases hc : PrimitiveType.kConics = v.fPrimitiveType <;>
    simp [hc]

/-- C8, as amended: for every state, pressing `+`, `=`, `-` or `_` multiplies by 2, 5/4,
4/5 and 1/2 respectively the stroke width if stroke mode is on, and the conic weight if
stroke mode is off and the kind is Conic; with stroke mode off and another kind neither
scalar changes. In every case the other scalar, the kind, the stroke flag and the four
control points are unchanged. -/
theorem scale_keys (ext : Collaborators) (v : CCPRGeometryView) (unichar : Int) (factor : ℚ)
    (hk : (unichar, factor) ∈
      [(uni '+', (2 : ℚ)), (uni '=', 5 / 4), (uni '-', 4 / 5), (uni '_', 1 / 2)]) :
    (onChar ext v unichar).1.fPrimitiveType = v.fPrimitiveType ∧
    (onChar ext v unichar).1.fDoStroke = v.fDoStroke ∧
    (onChar ext v unichar).1.fPoints = v.fPoints ∧
    (v.fDoStroke = true →
      (onChar ext v unichar).1.fStrokeWidth = v.fStrokeWidth * factor ∧
      (onChar ext v unichar).1.fConicWeight = v.fConicWeight) ∧
    (v.fDoStroke = false → v.fPrimitiveType = PrimitiveType.kConics →
      (onChar ext v unichar).1.fConicWeight = v.fConicWeight * factor ∧
      (onChar ext v unichar).1.fStrokeWidth = v.fStrokeWidth) ∧
    (v.fDoStroke = false → v.fPrimitiveType ≠ PrimitiveType.kConics →
      (onChar ext v unichar).1.fConicWeight = v.fConicWeight ∧
      (onChar ext v unichar).1.fStrokeWidth = v.fStrokeWidth) := by
  rw [onChar_scale_key ext v unichar factor hk]
  cases hs : v.fDoStroke
  · by_cases hc : PrimitiveType.kConics = v.fPrimitiveType
    · simp [hc.symm, hs, updateAndInval, ScaleTarget.scale]
    · have hc' : ¬ v.fPrimitiveType = PrimitiveType.kConics := fun h => hc h.symm
      simp [hc, hc', hs]
  · simp [hs, updateAndInval, ScaleTarget.scale]

theorem scale_keys_witness :
    (uni '=', (5 / 4 : ℚ)) ∈
      [(uni '+', (2 : ℚ)), (uni '=', 5 / 4), (uni '-', 4 / 5), (uni '_', 1 / 2)] ∧
    strokedConicView.fDoStroke = true ∧
    (onChar passThrough strokedConicView (uni '=')).1.fStrokeWidth
      = strokedConicView.fStrokeWidth * (5 / 4) ∧
    (onChar passThrough strokedConicView (uni '=')).1.fConicWeight
      = strokedConicView.fConicWeight :=
  ⟨by simp, rfl,
    (scale_keys passThrough strokedConicView (uni '=') (5 / 4) (by simp)).2.2.2.1 rfl⟩

/-- C8, counterexample: in the freshly constructed view (Triangle kind, stroke mode off)
pressing `+` leaves the conic weight at 1/2 instead of doubling it. -/
theorem plus_key_ignored_for_triangle :
    CCPRGeometryView.initial.fDoStroke = false ∧
    CCPRGeometryView.initial.fConicWeight = 1 / 2 ∧
    (onChar passThrough CCPRGeometryView.initial (uni '+')).1.fConicWeight = 1 / 2 ∧
    (onChar passThrough CCPRGeometryView.initial (uni '+')).1.fConicWeight
      ≠ CCPRGeometryView.initial.fConicWeight * 2 := by
  have h0 : CCPRGeometryView.initial.fConicWeight = 1 / 2 := by
    simp [CCPRGeometryView.initial]; norm_num
  have h : (onChar passThrough CCPRGeometryView.initial (uni '+')).1.fConicWeight = 1 / 2 := by
    rw [onChar_scale_key passThrough CCPRGeometryView.initial (uni '+') 2 (by simp)]
    have hc : ¬ PrimitiveType.kConics = CCPRGeometryView.initial.fPrimitiveType := by decide
    have hs : CCPRGeometryView.initial.fDoStroke = false := rfl
    simp [hc, hs, h0]
  refine ⟨rfl, h0, h, ?_⟩
  rw [h, h0]; norm_num

theorem onChar_digit (ext : Collaborators) (v : CCPRGeometryView) (unichar : Int)
    (h : uni '1' ≤ unichar ∧ unichar ≤ uni '4') :
    (onChar ext v unichar).1.fPrimitiveType
      = if unichar = uni '1' then PrimitiveType.kTriangles
        else if unichar = uni '2' then PrimitiveType.kQuadratics
        else if unichar = uni '3' then PrimitiveType.kCubics
        else PrimitiveType.kConics := by
  have h1 : uni '1' = 49 := rfl
  have h2 : uni '2' = 50 := rfl
  have h3 : uni '3' = 51 := rfl
  have h4 : uni '4' = 52 := rfl
  rw [h1, h4] at h
  unfold onChar
  rw [h1, h2, h3, h4]
  have hu : unichar = 49 ∨ unichar = 50 ∨ unichar = 51 ∨ unichar = 52 := by omega
  rcases hu with rfl | rfl | rfl | rfl <;>
    simp [updateAndInval, PrimitiveType.kWeightedTriangles, PrimitiveType.kTriangles,
      PrimitiveType.kQuadratics, PrimitiveType.kCubics, PrimitiveType.kConics]

@[simp] theorem ScaleTarget.scale_fPrimitiveType (p : ScaleTarget) (v : CCPRGeometryView)
    (factor : ℚ) : (p.scale v factor).fPrimitiveType = v.fPrimitiveType := by
  cases p <;> rfl

theorem onChar_other (ext : Collaborators) (v : CCPRGeometryView) (unichar : Int)
    (h : ¬ (uni '1' ≤ unichar ∧ unichar ≤ uni '4')) :
    (onChar ext v unichar).1.fPrimitiveType = v.fPrimitiveType := by
  unfold onChar
  rw [if_neg (by simpa [ge_iff_le] using h)]
  simp only []
  generalize (if v.fDoStroke = true then some ScaleTarget.fStrokeWidth
    else if PrimitiveType.kConics = v.fPrimitiveType then some ScaleTarget.fConicWeight
    else none) = valueToScale
  cases valueToScale with
  | none => simp only []; split_ifs <;> simp [updateAndInval]
  | some p => simp only []; split_ifs <;> simp [updateAndInval]

theorem onClick_kind (ext : Collaborators) (v w : CCPRGeometryView) (click : Click)
    (handled : Bool) (h : onClick ext v click = some (w, handled)) :
    w.fPrimitiveType = v.fPrimitiveType := by
  unfold onClick at h
  cases hd : click.doClick v.fPoints with
  | none => simp [hd] at h
  | some pts =>
    simp [hd] at h
    rw [← h.1]
    simp [updateAndInval]

/-- C9: the digit keys `1`, `2`, `3`, `4` select the kinds Triangles, Quadratics, Cubics,
Conics; these four are pairwise distinct and none is the WeightedTriangles slot; and in
every view reachable from the freshly constructed one by `onOnceBeforeDraw`, keys and
clicks the kind is one of those four, never WeightedTriangles. -/
theorem kind_invariant (ext : Collaborators) :
    (∀ v : CCPRGeometryView,
      (onChar ext v (uni '1')).1.fPrimitiveType = PrimitiveType.kTriangles ∧
      (onChar ext v (uni '2')).1.fPrimitiveType = PrimitiveType.kQuadratics ∧
      (onChar ext v (uni '3')).1.fPrimitiveType = PrimitiveType.kCubics ∧
      (onChar ext v (uni '4')).1.fPrimitiveType = PrimitiveType.kConics) ∧
    [PrimitiveType.kTriangles, PrimitiveType.kQuadratics, PrimitiveType.kCubics,
      PrimitiveType.kConics].Nodup ∧
    PrimitiveType.kWeightedTriangles ∉ [PrimitiveType.kTriangles, PrimitiveType.kQuadratics,
      PrimitiveType.kCubics, PrimitiveType.kConics] ∧
    ∀ v : CCPRGeometryView, Reachable ext v →
      v.fPrimitiveType ∈ [PrimitiveType.kTriangles, PrimitiveType.kQuadratics,
        PrimitiveType.kCubics, PrimitiveType.kConics] ∧
      v.fPrimitiveType ≠ PrimitiveType.kWeightedTriangles := by
  have hmem : ∀ v : CCPRGeometryView, Reachable ext v →
      v.fPrimitiveType ∈ [PrimitiveType.kTriangles, PrimitiveType.kQuadratics,
        PrimitiveType.kCubics, PrimitiveType.kConics] := by
    intro v hv
    induction hv with
    | initial => simp [CCPRGeometryView.initial]
    | onOnceBeforeDraw v _ ih => simpa [onOnceBeforeDraw] using ih
    | onChar v unichar _ ih =>
      by_cases h : uni '1' ≤ unichar ∧ unichar ≤ uni '4'
      · rw [onChar_digit ext v unichar h]
        split_ifs <;> simp
      · rw [onChar_other ext v unichar h]
        exact ih
    | onClick v w click handled _ hc ih =>
      rw [onClick_kind ext v w click handled hc]
      exact ih
  refine ⟨fun v => ⟨?_, ?_, ?_, ?_⟩, by decide, by decide, fun v hv => ⟨hmem v hv, ?_⟩⟩
  · rw [onChar_digit ext v _ (by decide)]; rfl
  · rw [onChar_digit ext v _ (by decide)]; rfl
  · rw [onChar_digit ext v _ (by decide)]; rfl
  · rw [onChar_digit ext v _ (by decide)]; rfl
  · intro h
    have := hmem v hv
    rw [h] at this
    exact absurd this (by decide)

theorem kind_invariant_witness :
    Reachable passThrough (onChar passThrough CCPRGeometryView.initial (uni '3')).1 ∧
    (onChar passThrough CCPRGeometryView.initial (uni '3')).1.fPrimitiveType
      ∈ [PrimitiveType.kTriangles, PrimitiveType.kQuadratics, PrimitiveType.kCubics,
        PrimitiveType.kConics] ∧
    (onChar passThrough CCPRGeometryView.initial (uni '3')).1.fPrimitiveType
      ≠ PrimitiveType.kWeightedTriangles :=
  ⟨Reachable.onChar _ _ Reachable.initial,
    (kind_invariant passThrough).2.2.2 _ (Reachable.onChar _ _ Reachable.initial)⟩

/-! ### The point cursor -/

theorem consumed_append (xs ys : List Verb) : consumed (xs ++ ys) = consumed xs + consumed ys := by
  simp [consumed]

theorem consumed_cons (x : Verb) (xs : List Verb) :
    consumed (x :: xs) = x.numPoints + consumed xs := by
  simp [consumed]

theorem cubicLoop_ptsIdx (g : GrCCFillGeometry) (vs : List Verb) (st : CubicLoop)
    (h : Verb.kMonotonicConicTo ∉ vs) :
    (vs.foldl (cubicLoopBody g) st).ptsIdx = st.ptsIdx + consumed vs := by
  induction vs generalizing st with
  | nil => simp [consumed]
  | cons x xs ih =>
    have hx : Verb.kMonotonicConicTo ≠ x := fun e => h (by simp [e])
    have hxs : Verb.kMonotonicConicTo ∉ xs := fun e => h (by simp [e])
    rw [List.foldl_cons, ih _ hxs, consumed_cons]
    cases x <;> simp [cubicLoopBody, Verb.numPoints] at hx ⊢ <;> omega

theorem cubicLoop_quads_prefix (g : GrCCFillGeometry) (vs : List Verb) (st : CubicLoop) :
    ∃ tail, (vs.foldl (cubicLoopBody g) st).quads = st.quads ++ tail := by
  induction vs generalizing st with
  | nil => exact ⟨[], by simp⟩
  | cons x xs ih =>
    obtain ⟨tail, ht⟩ := ih (cubicLoopBody g st x)
    rw [List.foldl_cons, ht]
    cases x <;> simp [cubicLoopBody]

theorem getElem?_append_cons_length {α : Type} (l : List α) (a : α) (t : List α) :
    (l ++ a :: t)[l.length]? = some a := by
  induction l with
  | nil => simp
  | cons x xs ih => simpa using ih

theorem cubicLoop_ptsIdx_le (g : GrCCFillGeometry) (vs : List Verb) (st : CubicLoop) :
    (vs.foldl (cubicLoopBody g) st).ptsIdx ≤ st.ptsIdx + consumed vs := by
  induction vs generalizing st with
  | nil => simp [consumed]
  | cons x xs ih =>
    rw [List.foldl_cons, consumed_cons]
    refine le_trans (ih _) ?_
    cases x <;> simp [cubicLoopBody, Verb.numPoints] <;> omega

theorem cubicCursor_le (g : GrCCFillGeometry) (pre : List Verb) :
    cubicCursor g pre ≤ consumed pre := by
  simpa [cubicCursor] using cubicLoop_ptsIdx_le g pre ⟨0, []⟩

theorem cubicCursor_eq (g : GrCCFillGeometry) (pre : List Verb)
    (h : ∀ x ∈ pre, cubicLoopAdmits x = true) :
    cubicCursor g pre = consumed pre := by
  have hpre : Verb.kMonotonicConicTo ∉ pre := fun e => by
    have := h _ e
    simp [cubicLoopAdmits] at this
  simpa [cubicCursor] using cubicLoop_ptsIdx g pre ⟨0, []⟩ hpre

theorem cubicLoop_reads (g : GrCCFillGeometry) (pre post : List Verb)
    (hv : g.verbs = pre ++ Verb.kMonotonicCubicTo :: post) :
    (cubicLoop g).quads[pre.count Verb.kMonotonicCubicTo]?
      = some (QuadPointInstance.set (g.pointsAt (cubicCursor g pre)) 0 0) := by
  have h2 := cubicLoop_quads_length g pre ⟨0, []⟩
  obtain ⟨tail, ht⟩ := cubicLoop_quads_prefix g post
    (cubicLoopBody g (pre.foldl (cubicLoopBody g) ⟨0, []⟩) Verb.kMonotonicCubicTo)
  simp only [Nat.zero_add, List.length_nil] at h2
  rw [cubicLoop, hv, List.foldl_append, List.foldl_cons, ht]
  simp only [cubicLoopBody, cubicCursor]
  rw [← h2, List.append_assoc]
  exact getElem?_append_cons_length _ _ _

theorem quadraticLoop_ptsIdx (t : PrimitiveType) (g : GrCCFillGeometry) (vs : List Verb)
    (st : QuadraticLoop) (h : Verb.kMonotonicCubicTo ∉ vs) :
    (vs.foldl (quadraticLoopBody t g) st).ptsIdx = st.ptsIdx + consumed vs := by
  induction vs generalizing st with
  | nil => simp [consumed]
  | cons x xs ih =>
    have hx : Verb.kMonotonicCubicTo ≠ x := fun e => h (by simp [e])
    have hxs : Verb.kMonotonicCubicTo ∉ xs := fun e => h (by simp [e])
    rw [List.foldl_cons, ih _ hxs, consumed_cons, quadraticLoopBody_ptsIdx]
    cases x <;> simp [Verb.numPoints] at hx ⊢ <;> omega

theorem quadraticLoop_conicWeightIdx (g : GrCCFillGeometry) (vs : List Verb)
    (st : QuadraticLoop) :
    (vs.foldl (quadraticLoopBody PrimitiveType.kConics g) st).conicWeightIdx
      = st.conicWeightIdx + vs.count Verb.kMonotonicConicTo := by
  induction vs generalizing st with
  | nil => simp
  | cons x xs ih =>
    rw [List.foldl_cons, ih, quadraticLoopBody_conicWeightIdx]
    cases x <;> simp [List.count_cons]
    omega

theorem quadraticLoop_tris_prefix (t : PrimitiveType) (g : GrCCFillGeometry) (vs : List Verb)
    (st : QuadraticLoop) :
    ∃ tail, (vs.foldl (quadraticLoopBody t g) st).tris = st.tris ++ tail := by
  induction vs generalizing st with
  | nil => exact ⟨[], by simp⟩
  | cons x xs ih =>
    obtain ⟨tail, ht⟩ := ih (quadraticLoopBody t g st x)
    rw [List.foldl_cons, ht, quadraticLoopBody_tris]
    exact ⟨_, List.append_assoc _ _ _⟩

theorem quadraticLoop_quads_prefix (t : PrimitiveType) (g : GrCCFillGeometry) (vs : List Verb)
    (st : QuadraticLoop) :
    ∃ tail, (vs.foldl (quadraticLoopBody t g) st).quads = st.quads ++ tail := by
  induction vs generalizing st with
  | nil => exact ⟨[], by simp⟩
  | cons x xs ih =>
    obtain ⟨tail, ht⟩ := ih (quadraticLoopBody t g st x)
    rw [List.foldl_cons, ht, quadraticLoopBody_quads]
    exact ⟨_, List.append_assoc _ _ _⟩

theorem quadraticLoop_ptsIdx_le (t : PrimitiveType) (g : GrCCFillGeometry) (vs : List Verb)
    (st : QuadraticLoop) :
    (vs.foldl (quadraticLoopBody t g) st).ptsIdx ≤ st.ptsIdx + consumed vs := by
  induction vs generalizing st with
  | nil => simp [consumed]
  | cons x xs ih =>
    rw [List.foldl_cons, consumed_cons]
    refine le_trans (ih _) ?_
    rw [quadraticLoopBody_ptsIdx]
    cases x <;> simp [Verb.numPoints] <;> omega

theorem quadraticCursor_le (t : PrimitiveType) (g : GrCCFillGeometry) (pre : List Verb) :
    quadraticCursor t g pre ≤ consumed pre := by
  simpa [quadraticCursor] using quadraticLoop_ptsIdx_le t g pre ⟨0, 0, [], []⟩

theorem quadraticCursor_eq (t : PrimitiveType) (g : GrCCFillGeometry) (pre : List Verb)
    (h : ∀ x ∈ pre, quadraticLoopAdmits x = true) :
    quadraticCursor t g pre = consumed pre := by
  have hpre : Verb.kMonotonicCubicTo ∉ pre := fun e => by
    have := h _ e
    simp [quadraticLoopAdmits] at this
  simpa [quadraticCursor] using quadraticLoop_ptsIdx t g pre ⟨0, 0, [], []⟩ hpre

theorem quadraticLoop_reads (g : GrCCFillGeometry) (pre post : List Verb)
    (hv : g.verbs = pre ++ Verb.kMonotonicQuadraticTo :: post) :
    (quadraticLoop PrimitiveType.kQuadratics g).tris[pre.count Verb.kMonotonicQuadraticTo]?
      = some (TriPointInstance.set
          (g.pointsAt (quadraticCursor PrimitiveType.kQuadratics g pre)) ⟨0, 0⟩) := by
  have h2 := quadraticLoop_tris_length PrimitiveType.kQuadratics g pre ⟨0, 0, [], []⟩
  obtain ⟨tail, ht⟩ := quadraticLoop_tris_prefix PrimitiveType.kQuadratics g post
    (quadraticLoopBody PrimitiveType.kQuadratics g
      (pre.foldl (quadraticLoopBody PrimitiveType.kQuadratics g) ⟨0, 0, [], []⟩)
      Verb.kMonotonicQuadraticTo)
  simp only [Nat.zero_add, List.length_nil, if_true] at h2
  rw [quadraticLoop, hv, List.foldl_append, List.foldl_cons, ht, quadraticLoopBody_tris]
  simp only [and_self, if_true, quadraticCursor]
  rw [← h2, List.append_assoc]
  exact getElem?_append_cons_length _ _ _

theorem conicLoop_reads (g : GrCCFillGeometry) (pre post : List Verb)
    (hv : g.verbs = pre ++ Verb.kMonotonicConicTo :: post) :
    (quadraticLoop PrimitiveType.kConics g).quads[pre.count Verb.kMonotonicConicTo]?
      = some (QuadPointInstance.setW
          (g.pointsAt (quadraticCursor PrimitiveType.kConics g pre)) ⟨0, 0⟩
          (g.getConicWeight (pre.count Verb.kMonotonicConicTo))) := by
  have h2 := quadraticLoop_quads_length PrimitiveType.kConics g pre ⟨0, 0, [], []⟩
  have h3 := quadraticLoop_conicWeightIdx g pre ⟨0, 0, [], []⟩
  obtain ⟨tail, ht⟩ := quadraticLoop_quads_prefix PrimitiveType.kConics g post
    (quadraticLoopBody PrimitiveType.kConics g
      (pre.foldl (quadraticLoopBody PrimitiveType.kConics g) ⟨0, 0, [], []⟩)
      Verb.kMonotonicConicTo)
  simp only [Nat.zero_add, List.length_nil, if_true] at h2 h3
  rw [quadraticLoop, hv, List.foldl_append, List.foldl_cons, ht, quadraticLoopBody_quads, h3]
  simp only [and_self, if_true, quadraticCursor]
  rw [← h2, List.append_assoc]
  exact getElem?_append_cons_length _ _ _

theorem consumed_split (pre post : List Verb) (x : Verb) :
    consumed (pre ++ x :: post) = consumed pre + x.numPoints + consumed post := by
  rw [consumed_append, consumed_cons]
  omega

theorem take_map_add_zero (ps : List SkPoint) (n : Nat) :
    (ps.take n).map (· + (⟨0, 0⟩ : SkPoint)) = ps.take n :=
  map_add_zero _

/-- C10: take a decomposition whose point buffer has length 1 + the number of points its
verbs consume, and a matching monotonic verb of it, with `pre` the verbs before it. The
loop starts its cursor at 0. `updateGpuData` builds the instance number `pre.count` of the
matching verb (instances are in verb order) from the consecutive points at the cursor
reached after `pre`, 4 points for a cubic and 3 for a quadratic or a conic, and these
points lie inside the point buffer; and when the decomposition is made of the verbs the
loop of the kind is written for, that cursor is the number of points consumed by the
verbs of `pre`, so the instance is built from the points at that offset. -/
theorem rebuild_reads_at_cursor (ext : Collaborators) (v : CCPRGeometryView)
    (pre post : List Verb) :
    (v.fPrimitiveType = PrimitiveType.kCubics →
      (cubicGeometry ext v).points.length = 1 + consumed (cubicGeometry ext v).verbs →
      (cubicGeometry ext v).verbs = pre ++ Verb.kMonotonicCubicTo :: post →
      cubicCursor (cubicGeometry ext v) [] = 0 ∧
      cubicCursor (cubicGeometry ext v) pre + 4 ≤ (cubicGeometry ext v).points.length ∧
      (updateGpuData ext v).fQuadPointInstances[pre.count Verb.kMonotonicCubicTo]?
        = some ⟨((cubicGeometry ext v).points.drop
            (cubicCursor (cubicGeometry ext v) pre)).take 4, none⟩ ∧
      ((∀ x ∈ (cubicGeometry ext v).verbs, cubicLoopAdmits x = true) →
        cubicCursor (cubicGeometry ext v) pre = consumed pre ∧
        consumed pre + 4 ≤ (cubicGeometry ext v).points.length ∧
        (updateGpuData ext v).fQuadPointInstances[pre.count Verb.kMonotonicCubicTo]?
          = some ⟨((cubicGeometry ext v).points.drop (consumed pre)).take 4, none⟩)) ∧
    (v.fPrimitiveType = PrimitiveType.kQuadratics →
      (quadraticGeometry ext v).points.length = 1 + consumed (quadraticGeometry ext v).verbs →
      (quadraticGeometry ext v).verbs = pre ++ Verb.kMonotonicQuadraticTo :: post →
      quadraticCursor PrimitiveType.kQuadratics (quadraticGeometry ext v) [] = 0 ∧
      quadraticCursor PrimitiveType.kQuadratics (quadraticGeometry ext v) pre + 3
        ≤ (quadraticGeometry ext v).points.length ∧
      (updateGpuData ext v).fTriPointInstances[pre.count Verb.kMonotonicQuadraticTo]?
        = some ⟨((quadraticGeometry ext v).points.drop
            (quadraticCursor PrimitiveType.kQuadratics (quadraticGeometry ext v) pre)).take 3⟩ ∧
      ((∀ x ∈ (quadraticGeometry ext v).verbs, quadraticLoopAdmits x = true) →
        quadraticCursor PrimitiveType.kQuadratics (quadraticGeometry ext v) pre
          = consumed pre ∧
        consumed pre + 3 ≤ (quadraticGeometry ext v).points.length ∧
        (updateGpuData ext v).fTriPointInstances[pre.count Verb.kMonotonicQuadraticTo]?
          = some ⟨((quadraticGeometry ext v).points.drop (consumed pre)).take 3⟩)) ∧
    (v.fPrimitiveType = PrimitiveType.kConics →
      (quadraticGeometry ext v).points.length = 1 + consumed (quadraticGeometry ext v).verbs →
      (quadraticGeometry ext v).verbs = pre ++ Verb.kMonotonicConicTo :: post →
      quadraticCursor PrimitiveType.kConics (quadraticGeometry ext v) [] = 0 ∧
      quadraticCursor PrimitiveType.kConics (quadraticGeometry ext v) pre + 3
        ≤ (quadraticGeometry ext v).points.length ∧
      (updateGpuData ext v).fQuadPointInstances[pre.count Verb.kMonotonicConicTo]?
        = some ⟨((quadraticGeometry ext v).points.drop
            (quadraticCursor PrimitiveType.kConics (quadraticGeometry ext v) pre)).take 3,
            some ((quadraticGeometry ext v).getConicWeight
              (pre.count Verb.kMonotonicConicTo))⟩ ∧
      ((∀ x ∈ (quadraticGeometry ext v).verbs, quadraticLoopAdmits x = true) →
        quadraticCursor PrimitiveType.kConics (quadraticGeometry ext v) pre = consumed pre ∧
        consumed pre + 3 ≤ (quadraticGeometry ext v).points.length ∧
        (updateGpuData ext v).fQuadPointInstances[pre.count Verb.kMonotonicConicTo]?
          = some ⟨((quadraticGeometry ext v).points.drop (consumed pre)).take 3,
              some ((quadraticGeometry ext v).getConicWeight
                (pre.count Verb.kMonotonicConicTo))⟩)) := by
  refine ⟨fun h hl hv => ?_, fun h hl hv => ?_, fun h hl hv => ?_⟩
  · have hle := cubicCursor_le (cubicGeometry ext v) pre
    have hb : cubicCursor (cubicGeometry ext v) pre + 4 ≤ (cubicGeometry ext v).points.length := by
      rw [hl, hv, consumed_split]
      simp only [Verb.numPoints]
      omega
    have hr : (updateGpuData ext v).fQuadPointInstances[pre.count Verb.kMonotonicCubicTo]?
        = some ⟨((cubicGeometry ext v).points.drop
            (cubicCursor (cubicGeometry ext v) pre)).take 4, none⟩ := by
      rw [(updateGpuData_cubics ext v h).1, cubicLoop_reads _ pre post hv]
      simp only [QuadPointInstance.set, GrCCFillGeometry.pointsAt]
      rw [take_map_add_zero]
    refine ⟨rfl, hb, hr, fun ha => ?_⟩
    have he := cubicCursor_eq (cubicGeometry ext v) pre
      (fun x hx => ha x (by rw [hv]; exact List.mem_append_left _ hx))
    rw [he] at hb hr
    exact ⟨he, hb, hr⟩
  · have h1 : v.fPrimitiveType ≠ PrimitiveType.kCubics := by rw [h]; decide
    have h2 : v.fPrimitiveType ≠ PrimitiveType.kTriangles := by rw [h]; decide
    have hle := quadraticCursor_le PrimitiveType.kQuadratics (quadraticGeometry ext v) pre
    have hb : quadraticCursor PrimitiveType.kQuadratics (quadraticGeometry ext v) pre + 3
        ≤ (quadraticGeometry ext v).points.length := by
      rw [hl, hv, consumed_split]
      simp only [Verb.numPoints]
      omega
    have hr : (updateGpuData ext v).fTriPointInstances[pre.count Verb.kMonotonicQuadraticTo]?
        = some ⟨((quadraticGeometry ext v).points.drop
            (quadraticCursor PrimitiveType.kQuadratics (quadraticGeometry ext v) pre)).take
              3⟩ := by
      rw [(updateGpuData_quadratics ext v h1 h2).2, h, quadraticLoop_reads _ pre post hv]
      simp only [TriPointInstance.set, GrCCFillGeometry.pointsAt]
      rw [take_map_add_zero]
    refine ⟨rfl, hb, hr, fun ha => ?_⟩
    have he := quadraticCursor_eq PrimitiveType.kQuadratics (quadraticGeometry ext v) pre
      (fun x hx => ha x (by rw [hv]; exact List.mem_append_left _ hx))
    rw [he] at hb hr
    exact ⟨he, hb, hr⟩
  · have h1 : v.fPrimitiveType ≠ PrimitiveType.kCubics := by rw [h]; decide
    have h2 : v.fPrimitiveType ≠ PrimitiveType.kTriangles := by rw [h]; decide
    have hle := quadraticCursor_le PrimitiveType.kConics (quadraticGeometry ext v) pre
    have hb : quadraticCursor PrimitiveType.kConics (quadraticGeometry ext v) pre + 3
        ≤ (quadraticGeometry ext v).points.length := by
      rw [hl, hv, consumed_split]
      simp only [Verb.numPoints]
      omega
    have hr : (updateGpuData ext v).fQuadPointInstances[pre.count Verb.kMonotonicConicTo]?
        = some ⟨((quadraticGeometry ext v).points.drop
            (quadraticCursor PrimitiveType.kConics (quadraticGeometry ext v) pre)).take 3,
            some ((quadraticGeometry ext v).getConicWeight
              (pre.count Verb.kMonotonicConicTo))⟩ := by
      rw [(updateGpuData_quadratics ext v h1 h2).1, h, conicLoop_reads _ pre post hv]
      simp only [QuadPointInstance.setW, GrCCFillGeometry.pointsAt]
      rw [take_map_add_zero]
    refine ⟨rfl, hb, hr, fun ha => ?_⟩
    have he := quadraticCursor_eq PrimitiveType.kConics (quadraticGeometry ext v) pre
      (fun x hx => ha x (by rw [hv]; exact List.mem_append_left _ hx))
    rw [he] at hb hr
    exact ⟨he, hb, hr⟩

theorem rebuild_reads_at_cursor_witness :
    (twoCubics.points.length = 1 + consumed twoCubics.verbs ∧
      twoQuadratics.points.length = 1 + consumed twoQuadratics.verbs ∧
      twoConics.points.length = 1 + consumed twoConics.verbs) ∧
    (consumed [Verb.kBeginContour, Verb.kMonotonicCubicTo, Verb.kLineTo] = 4 ∧
      (updateGpuData (fixedGeometry twoCubics)
          (sampleView PrimitiveType.kCubics)).fQuadPointInstances[1]?
        = some ⟨[⟨4, 0⟩, ⟨5, 0⟩, ⟨6, 0⟩, ⟨7, 0⟩], none⟩) ∧
    (consumed [Verb.kBeginContour, Verb.kMonotonicQuadraticTo, Verb.kLineTo] = 3 ∧
      (updateGpuData (fixedGeometry twoQuadratics)
          (sampleView PrimitiveType.kQuadratics)).fTriPointInstances[1]?
        = some ⟨[⟨3, 0⟩, ⟨4, 0⟩, ⟨5, 0⟩]⟩) ∧
    (consumed [Verb.kBeginContour, Verb.kMonotonicConicTo, Verb.kLineTo] = 3 ∧
      (updateGpuData (fixedGeometry twoConics)
          (sampleView PrimitiveType.kConics)).fQuadPointInstances[1]?
        = some ⟨[⟨3, 1⟩, ⟨4, 2⟩, ⟨4, 3⟩], some 3⟩) :=
  ⟨⟨by decide, by decide, by decide⟩,
    ⟨by decide,
      ((rebuild_reads_at_cursor (fixedGeometry twoCubics) (sampleView PrimitiveType.kCubics)
        [Verb.kBeginContour, Verb.kMonotonicCubicTo, Verb.kLineTo] [Verb.kEndOpenContour]).1
        rfl (by decide) rfl).2.2.2 (by decide) |>.2.2⟩,
    ⟨by decide,
      ((rebuild_reads_at_cursor (fixedGeometry twoQuadratics)
        (sampleView PrimitiveType.kQuadratics)
        [Verb.kBeginContour, Verb.kMonotonicQuadraticTo, Verb.kLineTo]
        [Verb.kEndOpenContour]).2.1
        rfl (by decide) rfl).2.2.2 (by decide) |>.2.2⟩,
    ⟨by decide,
      ((rebuild_reads_at_cursor (fixedGeometry twoConics) (sampleView PrimitiveType.kConics)
        [Verb.kBeginContour, Verb.kMonotonicConicTo, Verb.kLineTo] [Verb.kEndOpenContour]).2.2
        rfl (by decide) rfl).2.2.2 (by decide) |>.2.2⟩⟩

/-- The hypothesis on the verbs cannot be dropped from the equality of the cursor and the
consumed count: were a cubic contour to hold a conic verb (BeginContour,
MonotonicConicTo, MonotonicCubicTo, EndOpenContour over 1 + 2 + 3 points), the cubic loop
would not advance over it and would build the instance from the points at offsets 0..3,
not 2..5; were a quadratic contour to hold a cubic verb (BeginContour, MonotonicCubicTo,
MonotonicQuadraticTo, EndOpenContour over 1 + 3 + 2 points), the quadratic loop would
advance by 2 over it and would build the instance from the points at offsets 2..4, not
3..5. -/
theorem cursor_misses_foreign_verbs :
    ((sampleView PrimitiveType.kCubics).fPrimitiveType = PrimitiveType.kCubics ∧
      (cubicGeometry (fixedGeometry conicThenCubic) (sampleView PrimitiveType.kCubics)).verbs
        = [Verb.kBeginContour, Verb.kMonotonicConicTo] ++
            Verb.kMonotonicCubicTo :: [Verb.kEndOpenContour] ∧
      (cubicGeometry (fixedGeometry conicThenCubic)
          (sampleView PrimitiveType.kCubics)).points.length
        = 1 + consumed (cubicGeometry (fixedGeometry conicThenCubic)
            (sampleView PrimitiveType.kCubics)).verbs ∧
      consumed [Verb.kBeginContour, Verb.kMonotonicConicTo] = 2 ∧
      (updateGpuData (fixedGeometry conicThenCubic)
          (sampleView PrimitiveType.kCubics)).fQuadPointInstances
        = [⟨[⟨0, 0⟩, ⟨1, 0⟩, ⟨2, 0⟩, ⟨3, 0⟩], none⟩] ∧
      (updateGpuData (fixedGeometry conicThenCubic)
          (sampleView PrimitiveType.kCubics)).fQuadPointInstances[0]?
        ≠ some ⟨((cubicGeometry (fixedGeometry conicThenCubic)
            (sampleView PrimitiveType.kCubics)).points.drop 2).take 4, none⟩) ∧
    ((sampleView PrimitiveType.kQuadratics).fPrimitiveType = PrimitiveType.kQuadratics ∧
      (quadraticGeometry (fixedGeometry cubicThenQuadratic)
          (sampleView PrimitiveType.kQuadratics)).verbs
        = [Verb.kBeginContour, Verb.kMonotonicCubicTo] ++
            Verb.kMonotonicQuadraticTo :: [Verb.kEndOpenContour] ∧
      (quadraticGeometry (fixedGeometry cubicThenQuadratic)
          (sampleView PrimitiveType.kQuadratics)).points.length
        = 1 + consumed (quadraticGeometry (fixedGeometry cubicThenQuadratic)
            (sampleView PrimitiveType.kQuadratics)).verbs ∧
      consumed [Verb.kBeginContour, Verb.kMonotonicCubicTo] = 3 ∧
      (updateGpuData (fixedGeometry cubicThenQuadratic)
          (sampleView PrimitiveType.kQuadratics)).fTriPointInstances
        = [⟨[⟨2, 0⟩, ⟨3, 0⟩, ⟨4, 0⟩]⟩] ∧
      (updateGpuData (fixedGeometry cubicThenQuadratic)
          (sampleView PrimitiveType.kQuadratics)).fTriPointInstances[0]?
        ≠ some ⟨((quadraticGeometry (fixedGeometry cubicThenQuadratic)
            (sampleView PrimitiveType.kQuadratics)).points.drop 3).take 3⟩) := by
  have h : (updateGpuData (fixedGeometry conicThenCubic)
        (sampleView PrimitiveType.kCubics)).fQuadPointInstances
      = [⟨[⟨0, 0⟩, ⟨1, 0⟩, ⟨2, 0⟩, ⟨3, 0⟩], none⟩] := by
    rw [(updateGpuData_cubics _ _ rfl).1]
    simp [cubicLoop, cubicGeometry, fixedGeometry, conicThenCubic, cubicLoopBody,
      QuadPointInstance.set, GrCCFillGeometry.pointsAt, SkPoint.add_def]
  have h' : (updateGpuData (fixedGeometry cubicThenQuadratic)
        (sampleView PrimitiveType.kQuadratics)).fTriPointInstances
      = [⟨[⟨2, 0⟩, ⟨3, 0⟩, ⟨4, 0⟩]⟩] := by
    rw [(updateGpuData_quadratics _ _ (by decide) (by decide)).2]
    simp [quadraticLoop, quadraticGeometry, fixedGeometry, cubicThenQuadratic,
      quadraticLoopBody, sampleView, TriPointInstance.set, GrCCFillGeometry.pointsAt,
      SkPoint.add_def]
  refine ⟨⟨rfl, rfl, by decide, by decide, h, ?_⟩, ⟨rfl, rfl, by decide, by decide, h', ?_⟩⟩
  · rw [h]
    simp [cubicGeometry, fixedGeometry, conicThenCubic]
  · rw [h']
    simp [quadraticGeometry, fixedGeometry, cubicThenQuadratic]

theorem triangle_kind_quads_nil (ext : Collaborators) (v : CCPRGeometryView)
    (h : v.fPrimitiveType = PrimitiveType.kTriangles) :
    (updateGpuData ext v).fQuadPointInstances = [] := by
  have hc : ¬ PrimitiveType.kCubics = PrimitiveType.kTriangles := by decide
  simp [updateGpuData, h, hc]

/-! ### The builder and the draw op together -/

theorem updateGpuData_tris_nil (ext : Collaborators) (v : CCPRGeometryView)
    (h : v.fPrimitiveType = PrimitiveType.kCubics ∨ v.fPrimitiveType = PrimitiveType.kConics) :
    (updateGpuData ext v).fTriPointInstances = [] := by
  rcases h with h | h
  · exact (updateGpuData_cubics ext v h).2
  · have h1 : v.fPrimitiveType ≠ PrimitiveType.kCubics := by rw [h]; decide
    have h2 : v.fPrimitiveType ≠ PrimitiveType.kTriangles := by rw [h]; decide
    have h3 : ¬ PrimitiveType.kQuadratics = PrimitiveType.kConics := by decide
    have hl := quadraticLoop_tris_length v.fPrimitiveType (quadraticGeometry ext v)
      (quadraticGeometry ext v).verbs ⟨0, 0, [], []⟩
    rw [(updateGpuData_quadratics ext v h1 h2).2, quadraticLoop]
    rw [h] at hl ⊢
    simpa [h3] using hl

theorem updateGpuData_quads_nil (ext : Collaborators) (v : CCPRGeometryView)
    (h : ¬ (v.fPrimitiveType = PrimitiveType.kCubics ∨
      v.fPrimitiveType = PrimitiveType.kConics)) :
    (updateGpuData ext v).fQuadPointInstances = [] := by
  have h1 : v.fPrimitiveType ≠ PrimitiveType.kCubics := fun e => h (Or.inl e)
  have h3 : ¬ PrimitiveType.kConics = v.fPrimitiveType := fun e => h (Or.inr e.symm)
  by_cases h2 : v.fPrimitiveType = PrimitiveType.kTriangles
  · exact (triangle_kind_quads_nil ext v h2)
  · have hl := quadraticLoop_quads_length v.fPrimitiveType (quadraticGeometry ext v)
      (quadraticGeometry ext v).verbs ⟨0, 0, [], []⟩
    rw [(updateGpuData_quadratics ext v h1 h2).1, quadraticLoop]
    simpa [h3] using hl

theorem drawInstances_eq (state : GrOpFlushState) (w : CCPRGeometryView) :
    DrawCoverageCountOp.drawInstances state w =
      if PrimitiveType.kCubics = w.fPrimitiveType ∨ PrimitiveType.kConics = w.fPrimitiveType then
        if ¬ w.fQuadPointInstances = [] ∧ state.createBuffer
            (w.fQuadPointInstances.length * state.sizeofQuadPointInstance) = true then
          [GpuCall.procReset w.fPrimitiveType,
            GpuCall.createBuffer (w.fQuadPointInstances.length * state.sizeofQuadPointInstance),
            GpuCall.appendMesh w.fQuadPointInstances.length, GpuCall.procDraw 1]
        else
          [GpuCall.procReset w.fPrimitiveType,
            GpuCall.createBuffer (w.fQuadPointInstances.length * state.sizeofQuadPointInstance)]
      else
        if ¬ w.fTriPointInstances = [] ∧ state.createBuffer
            (w.fTriPointInstances.length * state.sizeofTriPointInstance) = true then
          [GpuCall.procReset w.fPrimitiveType,
            GpuCall.createBuffer (w.fTriPointInstances.length * state.sizeofTriPointInstance),
            GpuCall.appendMesh w.fTriPointInstances.length, GpuCall.procDraw 1]
        else
          [GpuCall.procReset w.fPrimitiveType,
            GpuCall.createBuffer (w.fTriPointInstances.length * state.sizeofTriPointInstance)] := by
  unfold DrawCoverageCountOp.drawInstances
  split_ifs with h1 h2 h2 <;> simp only [h1, h2, if_true, if_false] <;> simp

theorem onExecute_fill (state : GrOpFlushState) (w : CCPRGeometryView)
    (h : w.fDoStroke = false) :
    DrawCoverageCountOp.onExecute state w
      = (if state.isOpenGL then [GpuCall.handleDirtyContext, GpuCall.glEnableLineSmooth] else [])
        ++ [GpuCall.makeProcessor state.geometryShaderSupport]
        ++ DrawCoverageCountOp.drawInstances state w
        ++ (if state.isOpenGL then [GpuCall.resetContext] else []) := by
  simp [DrawCoverageCountOp.onExecute, h]

theorem appendMesh_mem_onExecute (state : GrOpFlushState) (w : CCPRGeometryView)
    (h : w.fDoStroke = false) (n : Nat) :
    GpuCall.appendMesh n ∈ DrawCoverageCountOp.onExecute state w ↔
      GpuCall.appendMesh n ∈ DrawCoverageCountOp.drawInstances state w := by
  rw [onExecute_fill state w h]
  cases state.isOpenGL <;> simp

theorem procDraw_mem_onExecute (state : GrOpFlushState) (w : CCPRGeometryView)
    (h : w.fDoStroke = false) (m : Nat) :
    GpuCall.procDraw m ∈ DrawCoverageCountOp.onExecute state w ↔
      GpuCall.procDraw m ∈ DrawCoverageCountOp.drawInstances state w := by
  rw [onExecute_fill state w h]
  cases state.isOpenGL <;> simp

/-- C11: for every view with stroke mode off and every decomposer, after `updateGpuData`
the instance array `onExecute` does not upload for the kind is empty (the triangle array
for Cubic and Conic, the quad array for Triangle and Quadratic), so one of the two arrays
is empty; a mesh `onExecute` appends holds every instance the builder emitted; `onExecute`
draws only if the array selected by the kind is non-empty; and when some instance was
emitted and buffer creation succeeds, the mesh with all instances is appended and drawn. -/
theorem unselected_array_empty (ext : Collaborators) (state : GrOpFlushState)
    (v : CCPRGeometryView) (hs : v.fDoStroke = false) :
    ((v.fPrimitiveType = PrimitiveType.kCubics ∨ v.fPrimitiveType = PrimitiveType.kConics) →
      (updateGpuData ext v).fTriPointInstances = []) ∧
    ((v.fPrimitiveType = PrimitiveType.kTriangles ∨
        v.fPrimitiveType = PrimitiveType.kQuadratics) →
      (updateGpuData ext v).fQuadPointInstances = []) ∧
    ((updateGpuData ext v).fTriPointInstances = [] ∨
      (updateGpuData ext v).fQuadPointInstances = []) ∧
    (∀ n, GpuCall.appendMesh n ∈ DrawCoverageCountOp.onExecute state (updateGpuData ext v) →
      n = (updateGpuData ext v).fTriPointInstances.length
        + (updateGpuData ext v).fQuadPointInstances.length) ∧
    (∀ m, GpuCall.procDraw m ∈ DrawCoverageCountOp.onExecute state (updateGpuData ext v) →
      ((v.fPrimitiveType = PrimitiveType.kCubics ∨ v.fPrimitiveType = PrimitiveType.kConics) →
        (updateGpuData ext v).fQuadPointInstances ≠ []) ∧
      (¬ (v.fPrimitiveType = PrimitiveType.kCubics ∨
          v.fPrimitiveType = PrimitiveType.kConics) →
        (updateGpuData ext v).fTriPointInstances ≠ [])) ∧
    (((updateGpuData ext v).fTriPointInstances ≠ [] ∨
        (updateGpuData ext v).fQuadPointInstances ≠ []) →
      (∀ size, state.createBuffer size = true) →
      GpuCall.appendMesh ((updateGpuData ext v).fTriPointInstances.length
          + (updateGpuData ext v).fQuadPointInstances.length)
        ∈ DrawCoverageCountOp.onExecute state (updateGpuData ext v) ∧
      GpuCall.procDraw 1 ∈ DrawCoverageCountOp.onExecute state (updateGpuData ext v)) := by
  have hw : (updateGpuData ext v).fDoStroke = false := by
    rw [updateGpuData_fDoStroke]; exact hs
  have hkind : (PrimitiveType.kCubics = (updateGpuData ext v).fPrimitiveType ∨
      PrimitiveType.kConics = (updateGpuData ext v).fPrimitiveType) ↔
      (v.fPrimitiveType = PrimitiveType.kCubics ∨ v.fPrimitiveType = PrimitiveType.kConics) := by
    rw [updateGpuData_fPrimitiveType, eq_comm, @eq_comm _ PrimitiveType.kConics]
  have hT := updateGpuData_tris_nil ext v
  have hQ := updateGpuData_quads_nil ext v
  have hnot : (v.fPrimitiveType = PrimitiveType.kTriangles ∨
      v.fPrimitiveType = PrimitiveType.kQuadratics) →
      ¬ (v.fPrimitiveType = PrimitiveType.kCubics ∨
        v.fPrimitiveType = PrimitiveType.kConics) := by
    rintro (h | h) <;> rw [h] <;> decide
  refine ⟨hT, fun h => hQ (hnot h), ?_, ?_, ?_, ?_⟩
  · by_cases hk : v.fPrimitiveType = PrimitiveType.kCubics ∨
        v.fPrimitiveType = PrimitiveType.kConics
    · exact Or.inl (hT hk)
    · exact Or.inr (hQ hk)
  · intro n hn
    rw [appendMesh_mem_onExecute state _ hw, drawInstances_eq] at hn
    by_cases hk : v.fPrimitiveType = PrimitiveType.kCubics ∨
        v.fPrimitiveType = PrimitiveType.kConics
    · rw [if_pos (hkind.mpr hk)] at hn
      rw [hT hk]
      split_ifs at hn <;> simp at hn
      simpa using hn
    · rw [if_neg (fun e => hk (hkind.mp e))] at hn
      rw [hQ hk]
      split_ifs at hn <;> simp at hn
      simpa using hn
  · intro m hm
    rw [procDraw_mem_onExecute state _ hw, drawInstances_eq] at hm
    refine ⟨fun hk => ?_, fun hk => ?_⟩
    · rw [if_pos (hkind.mpr hk)] at hm
      split_ifs at hm with h2
      · exact h2.1
      · simp at hm
    · rw [if_neg (fun e => hk (hkind.mp e))] at hm
      split_ifs at hm with h2
      · exact h2.1
      · simp at hm
  · intro hne hbuf
    rw [appendMesh_mem_onExecute state _ hw, procDraw_mem_onExecute state _ hw, drawInstances_eq]
    by_cases hk : v.fPrimitiveType = PrimitiveType.kCubics ∨
        v.fPrimitiveType = PrimitiveType.kConics
    · have hq : (updateGpuData ext v).fQuadPointInstances ≠ [] := by
        rcases hne with h | h
        · exact absurd (hT hk) h
        · exact h
      rw [if_pos (hkind.mpr hk), if_pos ⟨hq, hbuf _⟩, hT hk]
      simp
    · have ht : (updateGpuData ext v).fTriPointInstances ≠ [] := by
        rcases hne with h | h
        · exact h
        · exact absurd (hQ hk) h
      rw [if_neg (fun e => hk (hkind.mp e)), if_pos ⟨ht, hbuf _⟩, hQ hk]
      simp

theorem unselected_array_empty_witness :
    (sampleView PrimitiveType.kConics).fDoStroke = false ∧
    (updateGpuData passThrough (sampleView PrimitiveType.kConics)).fTriPointInstances = [] ∧
    (updateGpuData passThrough (sampleView PrimitiveType.kConics)).fQuadPointInstances.length
      = 1 ∧
    GpuCall.appendMesh
        ((updateGpuData passThrough (sampleView PrimitiveType.kConics)).fTriPointInstances.length
          + (updateGpuData passThrough
              (sampleView PrimitiveType.kConics)).fQuadPointInstances.length)
      ∈ DrawCoverageCountOp.onExecute sampleFlushState
          (updateGpuData passThrough (sampleView PrimitiveType.kConics)) ∧
    GpuCall.procDraw 1 ∈ DrawCoverageCountOp.onExecute sampleFlushState
      (updateGpuData passThrough (sampleView PrimitiveType.kConics)) :=
  ⟨rfl,
    (unselected_array_empty passThrough sampleFlushState (sampleView PrimitiveType.kConics)
      rfl).1 (Or.inr rfl),
    by decide,
    (unselected_array_empty passThrough sampleFlushState (sampleView PrimitiveType.kConics)
      rfl).2.2.2.2.2 (Or.inr (by decide)) (fun _ => rfl)⟩

end CCPRGeometry
